import Mathlib

/-!
# Verification of `src/discovery/state_sync.py`

A shallow embedding of the Macie Terraform state-sync script.  External
effects (terraform subprocess runs, boto3 API calls, file reads) are
modelled by an `Env` oracle holding the responses the outside world would
return, and every operation additionally returns the ordered list of
external calls (`Event`s) it performed, so that "zero write calls" and
"once per run" style properties are statable.
-/

set_option linter.unusedVariables false

/-- Outcome of one `subprocess.run(["terraform", ...])` invocation, as seen
by `run_terraform_cmd` (lines 28-44): either the process completed with an
exit code and combined stdout+stderr output, or `subprocess.TimeoutExpired`
was raised, or some other exception was raised. -/
inductive TfOutcome where
  | exitCode (code : Int) (output : String)
  | timedOut (secs : Nat) (cmdline : String)
  | execError (msg : String)
  deriving DecidableEq

/-- `run_terraform_cmd` (lines 28-44): returns `(success, output)`.
`success` is `returncode == 0`; a timeout or any other exception is caught
and reported as `(False, message)`. -/
def run_terraform_cmd : TfOutcome → Bool × String
  | .exitCode code output => (code == 0, output)
  | .timedOut secs cmdline =>
      (false, "Command timed out after " ++ toString secs ++ "s: " ++ cmdline)
  | .execError msg => (false, msg)

/-- Drop leading whitespace characters, as Python `str.strip` does on the
left (modelling the ASCII whitespace subset via `Char.isWhitespace`). -/
def dropWhileWs : List Char → List Char
  | [] => []
  | c :: t => if c.isWhitespace then dropWhileWs t else c :: t

/-- Python `output.strip()`: whitespace removed from both ends. -/
def pyStrip (s : String) : String :=
  String.mk ((dropWhileWs ((dropWhileWs s.data).reverse)).reverse)

/-- Helper for `pySplitOnNl`: accumulates the current field (reversed). -/
def splitNlAux : List Char → List Char → List String
  | [], acc => [String.mk acc.reverse]
  | c :: t, acc =>
      if c = '\n' then String.mk acc.reverse :: splitNlAux t []
      else splitNlAux t (c :: acc)

/-- Python `s.split("\n")`: e.g. `""` gives `[""]`, `"a\n"` gives
`["a", ""]`, `"a\n\nb"` gives `["a", "", "b"]`. -/
def pySplitOnNl (s : String) : List String :=
  splitNlAux s.data []

/-- `get_state_resources` (lines 47-52): run `terraform state list`; on
success return the set of nonblank-stripped lines (Python:
`set(output.strip().split("\n")) if output.strip() else set()`); on any
failure return the empty set. -/
def get_state_resources (raw : TfOutcome) : Finset String :=
  let r := run_terraform_cmd raw
  if r.1 then
    if pyStrip r.2 ≠ "" then (pySplitOnNl (pyStrip r.2)).toFinset
    else (∅ : Finset String)
  else (∅ : Finset String)

/-- `resource_exists_in_state` (lines 55-57): membership in the TrackedSet
snapshot. -/
def resource_exists_in_state (address : String) (state_resources : Finset String) : Bool :=
  decide (address ∈ state_resources)

/-- Does `pat` start `l`?  (char-by-char comparison). -/
def strStartsWith : List Char → List Char → Bool
  | _, [] => true
  | [], _ :: _ => false
  | a :: as, b :: bs => a == b && strStartsWith as bs

/-- Does `pat` occur somewhere in `hay`? -/
def strHasSub (hay pat : List Char) : Bool :=
  match hay with
  | [] => pat.isEmpty
  | _ :: t => strStartsWith hay pat || strHasSub t pat

/-- Python substring test `pat in s`. -/
def containsSub (s pat : String) : Bool :=
  strHasSub s.data pat.data

/-- Line 24: number of attempts for `terraform import` commands. -/
def IMPORT_RETRIES : Nat := 2

/-- Line 25: seconds slept between consecutive import attempts. -/
def IMPORT_RETRY_DELAY : Nat := 5

/-- One observable external call made by the script.  Terraform state
mutation happens only through `tfImport`; `wouldImport` is the dry-run
report line printed instead of importing. -/
inductive Event where
  | tfStateList
  | tfPlanRefresh
  | tfImport (address resource_id : String)
  | wouldImport (address resource_id : String)
  | stsAssumeRole (account_id : String)
  | macieGetSessionMgmt
  | macieGetSessionAudit
  | orgListDelegatedAdmins
  deriving DecidableEq

/-- Result of `import_resource`: the returned boolean, the external calls
performed (in order) and the `time.sleep` delays performed (in order). -/
structure ImportRun where
  result : Bool
  events : List Event
  delays : List Nat
  deriving DecidableEq

/-- The `bootstrap.auto.tfvars.json` fields the script reads, after the
`dict.get(key, "")` defaulting the script applies (a missing key is the
empty string). -/
structure Tfvars where
  management_account_id : String
  audit_account_id : String
  resource_pfx : String
  deployment_name : String
  deriving DecidableEq

/-- State of a configuration file on disk: missing, present but failing to
parse (`json.load` / `yaml.safe_load` raises), or parsed. -/
inductive FileRead (α : Type) where
  | absent
  | malformed
  | parsed (v : α)
  deriving DecidableEq

/-- Response of a `get_macie_session` call: a session document with a
`status` field, or a raised `ClientError` with message text.  This base
oracle covers the runs in which no non-`ClientError` exception is raised;
a raise of that kind is uncaught in the source and is modelled by
`MacieRespX`/`EnvX` further below. -/
inductive MacieResp where
  | ok (status : String)
  | clientError (msg : String)
  deriving DecidableEq

/-- Response of `list_delegated_administrators`: the list of delegated
administrator account ids, or a raised `ClientError` (the only exception
the source catches there); a non-`ClientError` raise is uncaught and is
modelled by `OrgRespX`/`EnvX` further below. -/
inductive OrgResp where
  | ok (admin_ids : List String)
  | clientError (msg : String)
  deriving DecidableEq

/-- The `config.yaml` fields `main` reads: `primary_region`, defaulted to
`"us-east-1"` when the key is missing. -/
structure ConfigModel where
  primary_region : Option String
  deriving DecidableEq

/-- Oracle for every external interaction the script can perform during a
run.  `importResults addr id n` is the terraform outcome of the n-th
`terraform import addr id` attempt.  `assumeRoleOk` covers `assume_role`
succeeding or failing with a caught `ClientError`.  This base oracle
describes exactly the runs in which no boto call raises an uncaught
non-`ClientError` exception; `EnvX` below extends it with that path, and
`Env.toX` embeds this oracle into the extended one. -/
structure Env where
  configFile : FileRead ConfigModel
  stateList : TfOutcome
  planRefresh : TfOutcome
  importResults : String → String → Nat → TfOutcome
  tfvarsFile : FileRead Tfvars
  mgmtMacie : MacieResp
  orgAdmins : OrgResp
  assumeRoleOk : Bool
  auditMacie : MacieResp

/-- Result of `get_account_ids_from_tfvars` (lines 82-96). -/
structure AccountIds where
  management : String
  audit : String
  deriving DecidableEq

/-- `get_account_ids_from_tfvars` (lines 82-96): defaults are empty
strings; a missing or unparsable file leaves the defaults (the `except
Exception: pass` branch). -/
def get_account_ids_from_tfvars : FileRead Tfvars → AccountIds
  | .absent => ⟨"", ""⟩
  | .malformed => ⟨"", ""⟩
  | .parsed t => ⟨t.management_account_id, t.audit_account_id⟩

/-- The retry loop of `import_resource` (lines 70-79): `attempt` is the
1-based loop counter, `remaining` the number of loop iterations left
(initially `IMPORT_RETRIES`), so `0 < remaining - 1` iff
`attempt < IMPORT_RETRIES`.  Each iteration runs one `terraform import`;
success or an output containing "Resource already managed" returns `True`;
otherwise, if attempts remain, sleeps `IMPORT_RETRY_DELAY` and retries;
after the last attempt returns `False`. -/
def importAttemptLoop (res : Nat → TfOutcome) (address resource_id : String) :
    Nat → Nat → ImportRun
  | _attempt, 0 => ⟨false, [], []⟩
  | attempt, remaining + 1 =>
    let r := run_terraform_cmd (res attempt)
    if r.1 then ⟨true, [Event.tfImport address resource_id], []⟩
    else if containsSub r.2 "Resource already managed" then
      ⟨true, [Event.tfImport address resource_id], []⟩
    else if 0 < remaining then
      let rest := importAttemptLoop res address resource_id (attempt + 1) remaining
      ⟨rest.result, Event.tfImport address resource_id :: rest.events,
        IMPORT_RETRY_DELAY :: rest.delays⟩
    else ⟨false, [Event.tfImport address resource_id], []⟩

/-- `import_resource` (lines 60-79): in dry-run mode, print the would-import
line and return `True` without touching terraform; otherwise run the retry
loop. -/
def importResource (env : Env) (address resource_id : String) (dry_run : Bool) : ImportRun :=
  if dry_run then ⟨true, [Event.wouldImport address resource_id], []⟩
  else importAttemptLoop (env.importResults address resource_id) address resource_id 1 IMPORT_RETRIES

/-- Classification of one resource kind's sync step, read off the status
line the step prints. -/
inductive Outcome where
  | alreadyInState
  | skipped (reason : String)
  | importedOk
  | importFailed
  | probeError (msg : String)
  deriving DecidableEq

/-- Outcome of reaching the import step: `import_resource` returning `True`
is printed as imported, `False` as import failed. -/
def importOutcome (r : ImportRun) : Outcome :=
  if r.result then Outcome.importedOk else Outcome.importFailed

deriving instance DecidableEq for Except

/-- Result of one sync step: `Except.error` models an uncaught Python
exception escaping the function, aborting the run. -/
structure SyncRes where
  outcome : Except String Outcome
  events : List Event
  deriving DecidableEq

/-- Line 147: terraform address of the CloudWatch log group. -/
def cw_tf_address : String := "aws_cloudwatch_log_group.deployments"

/-- Line 181: terraform address of the management-account Macie resource. -/
def mgmt_tf_address : String := "module.macie_org[0].aws_macie2_account.management"

/-- Line 218: terraform address of the delegated-admin resource. -/
def org_admin_tf_address : String := "module.macie_org[0].aws_macie2_organization_admin_account.main"

/-- Line 253: terraform address of the audit-account Macie resource. -/
def audit_tf_address : String := "module.macie_config[0].aws_macie2_account.audit"

/-- Line 167: the log group name derived from tfvars fields
(`resource_prefix` and `deployment_name` keys). -/
def log_group_name (t : Tfvars) : String :=
  "/" ++ t.resource_pfx ++ "/deployments/" ++ t.deployment_name

/-- `sync_cloudwatch_log_group` (lines 138-174): state check, then tfvars
read (NOTE: the `json.load` on line 159 is not wrapped in try/except, so a
malformed tfvars file raises out of the function), then field check, then the
actual import. -/
def sync_cloudwatch_log_group (env : Env) (state_resources : Finset String)
    (dry_run : Bool) : SyncRes :=
  if resource_exists_in_state cw_tf_address state_resources then
    ⟨Except.ok Outcome.alreadyInState, []⟩
  else
    match env.tfvarsFile with
    | .absent => ⟨Except.ok (Outcome.skipped "No tfvars found"), []⟩
    | .malformed => ⟨Except.error "json.load raised", []⟩
    | .parsed t =>
      if t.resource_pfx == "" || t.deployment_name == "" then
        ⟨Except.ok (Outcome.skipped "Missing resource_prefix or deployment_name"), []⟩
      else
        let r := importResource env cw_tf_address (log_group_name t) dry_run
        ⟨Except.ok (importOutcome r), r.events⟩

/-- `sync_macie_management_account` (lines 177-204): state check, then
`get_macie_session` in the local account; import with the fixed identifier
`"macie"` when status is ENABLED; a `ClientError` mentioning "Macie is not
enabled" is a skip, any other `ClientError` is reported as an error and the
function returns normally. -/
def sync_macie_management_account (env : Env) (state_resources : Finset String)
    (dry_run : Bool) : SyncRes :=
  if resource_exists_in_state mgmt_tf_address state_resources then
    ⟨Except.ok Outcome.alreadyInState, []⟩
  else
    match env.mgmtMacie with
    | .ok status =>
      if status == "ENABLED" then
        let r := importResource env mgmt_tf_address "macie" dry_run
        ⟨Except.ok (importOutcome r), Event.macieGetSessionMgmt :: r.events⟩
      else
        ⟨Except.ok (Outcome.skipped "Macie not enabled in management account"),
          [Event.macieGetSessionMgmt]⟩
    | .clientError msg =>
      if containsSub msg "Macie is not enabled" then
        ⟨Except.ok (Outcome.skipped "Macie not enabled in management account"),
          [Event.macieGetSessionMgmt]⟩
      else
        ⟨Except.ok (Outcome.probeError msg), [Event.macieGetSessionMgmt]⟩

/-- `sync_macie_org_admin` (lines 207-240): tfvars audit id check first,
then state check, then `list_delegated_administrators`; import uses the
audit account id as the identifier; any `ClientError` is caught. -/
def sync_macie_org_admin (env : Env) (state_resources : Finset String)
    (dry_run : Bool) : SyncRes :=
  if (get_account_ids_from_tfvars env.tfvarsFile).audit == "" then
    ⟨Except.ok (Outcome.skipped "No audit account ID found"), []⟩
  else if resource_exists_in_state org_admin_tf_address state_resources then
    ⟨Except.ok Outcome.alreadyInState, []⟩
  else
    match env.orgAdmins with
    | .ok admin_ids =>
      if admin_ids.contains (get_account_ids_from_tfvars env.tfvarsFile).audit then
        let r := importResource env org_admin_tf_address
          (get_account_ids_from_tfvars env.tfvarsFile).audit dry_run
        ⟨Except.ok (importOutcome r), Event.orgListDelegatedAdmins :: r.events⟩
      else
        ⟨Except.ok (Outcome.skipped "Delegated admin not configured"),
          [Event.orgListDelegatedAdmins]⟩
    | .clientError msg =>
      ⟨Except.ok (Outcome.probeError msg), [Event.orgListDelegatedAdmins]⟩

/-- `sync_macie_audit_account` (lines 243-280): tfvars audit id check, state
check, cross-account role assumption (a `ClientError` there returns `None`
and the kind is skipped), then `get_macie_session` in the audit account;
the importing uses the fixed identifier `"macie"`. -/
def sync_macie_audit_account (env : Env) (state_resources : Finset String)
    (primary_region : String) (dry_run : Bool) : SyncRes :=
  if (get_account_ids_from_tfvars env.tfvarsFile).audit == "" then
    ⟨Except.ok (Outcome.skipped "No audit account ID found"), []⟩
  else if resource_exists_in_state audit_tf_address state_resources then
    ⟨Except.ok Outcome.alreadyInState, []⟩
  else if !env.assumeRoleOk then
    ⟨Except.ok (Outcome.skipped "Could not assume role into audit account"),
      [Event.stsAssumeRole (get_account_ids_from_tfvars env.tfvarsFile).audit]⟩
  else
    match env.auditMacie with
    | .ok status =>
      if status == "ENABLED" then
        let r := importResource env audit_tf_address "macie" dry_run
        ⟨Except.ok (importOutcome r),
          Event.stsAssumeRole (get_account_ids_from_tfvars env.tfvarsFile).audit
            :: Event.macieGetSessionAudit :: r.events⟩
      else
        ⟨Except.ok (Outcome.skipped "Macie not enabled in audit account"),
          [Event.stsAssumeRole (get_account_ids_from_tfvars env.tfvarsFile).audit,
            Event.macieGetSessionAudit]⟩
    | .clientError msg =>
      if containsSub msg "Macie is not enabled" then
        ⟨Except.ok (Outcome.skipped "Macie not enabled in audit account"),
          [Event.stsAssumeRole (get_account_ids_from_tfvars env.tfvarsFile).audit,
            Event.macieGetSessionAudit]⟩
      else
        ⟨Except.ok (Outcome.probeError msg),
          [Event.stsAssumeRole (get_account_ids_from_tfvars env.tfvarsFile).audit,
            Event.macieGetSessionAudit]⟩

/-- Result of one full run of `main` (lines 294-344): the ordered external
call trace, the outcomes of the sync steps that completed, and the process
exit status — `Except.ok` is the value `sys.exit(main())` receives (`main`
ends with `return 0`), `Except.error` an uncaught exception (a nonzero
process exit). -/
structure RunResult where
  events : List Event
  outcomes : List Outcome
  exit : Except String Int
  deriving DecidableEq

/-- `main` (lines 294-344): load `config.yaml` (missing or unparsable file
raises before anything else), read the TrackedSet once, warm up providers
when the state is empty and not in dry-run, then run the four sync steps in
order; an exception escaping a step aborts the run, otherwise `return 0`.
(Named `mainRun` because Lean reserves the name `main`.) -/
def mainRun (env : Env) (dry_run : Bool) : RunResult :=
  match env.configFile with
  | .absent => ⟨[], [], Except.error "FileNotFoundError"⟩
  | .malformed => ⟨[], [], Except.error "config parse raised"⟩
  | .parsed config =>
    let primary_region := config.primary_region.getD "us-east-1"
    let state_resources := get_state_resources env.stateList
    let warm : List Event :=
      if state_resources.card == 0 && !dry_run then [Event.tfPlanRefresh] else []
    let pre := Event.tfStateList :: warm
    let r1 := sync_cloudwatch_log_group env state_resources dry_run
    match r1.outcome with
    | .error e => ⟨pre ++ r1.events, [], Except.error e⟩
    | .ok o1 =>
      let r2 := sync_macie_management_account env state_resources dry_run
      match r2.outcome with
      | .error e => ⟨pre ++ r1.events ++ r2.events, [o1], Except.error e⟩
      | .ok o2 =>
        let r3 := sync_macie_org_admin env state_resources dry_run
        match r3.outcome with
        | .error e => ⟨pre ++ r1.events ++ r2.events ++ r3.events, [o1, o2], Except.error e⟩
        | .ok o3 =>
          let r4 := sync_macie_audit_account env state_resources primary_region dry_run
          match r4.outcome with
          | .error e =>
            ⟨pre ++ r1.events ++ r2.events ++ r3.events ++ r4.events, [o1, o2, o3],
              Except.error e⟩
          | .ok o4 =>
            ⟨pre ++ r1.events ++ r2.events ++ r3.events ++ r4.events, [o1, o2, o3, o4],
              Except.ok 0⟩

/-- The (address, identifier) of a `terraform import` call, if the event is
one. -/
def importPairOf : Event → Option (String × String)
  | .tfImport a i => some (a, i)
  | _ => none

/-- The (address, identifier) of a dry-run would-import report, if the
event is one. -/
def wouldPairOf : Event → Option (String × String)
  | .wouldImport a i => some (a, i)
  | _ => none

/-- Set of (address, identifier) pairs actually passed to
`terraform import` in a trace. -/
def importPairs (es : List Event) : Finset (String × String) :=
  (es.filterMap importPairOf).toFinset

/-- Set of (address, identifier) pairs reported as "would import" in a
trace. -/
def wouldPairs (es : List Event) : Finset (String × String) :=
  (es.filterMap wouldPairOf).toFinset

/-- Did the file read yield a parsed value? -/
def isParsed {α : Type} : FileRead α → Bool
  | .parsed _ => true
  | _ => false

/-! ### Extended oracle: uncaught non-ClientError exceptions

The sync functions catch only `ClientError` (lines 114, 200, 239, 276); any
other exception a boto client construction or call raises — the
`BotoCoreError` family: endpoint unreachable, connect timeout, missing
credentials or region — propagates out of the sync function and aborts the
run.  `MacieRespX`, `OrgRespX`, `StsRespX` and `EnvX` extend the base
oracle with that `botoError` path; the base `Env` describes exactly the
runs in which no such raise occurs, and the base results are embedded into
the extended model by `Env.toX` below. -/

/-- `get_macie_session` with the uncaught path: `botoError` is any raised
exception that is not a `ClientError`; nothing catches it, so it aborts the
run. -/
inductive MacieRespX where
  | ok (status : String)
  | clientError (msg : String)
  | botoError (msg : String)
  deriving DecidableEq

/-- `list_delegated_administrators` with the uncaught path. -/
inductive OrgRespX where
  | ok (admin_ids : List String)
  | clientError (msg : String)
  | botoError (msg : String)
  deriving DecidableEq

/-- `assume_role` in `get_cross_account_session` (lines 99-116): a
`ClientError` is caught there (the function returns `None` and the caller
skips the kind); any other raise is uncaught. -/
inductive StsRespX where
  | ok
  | clientError (msg : String)
  | botoError (msg : String)
  deriving DecidableEq

/-- Is this response an uncaught raise? -/
def MacieRespX.isBotoError : MacieRespX → Bool
  | .botoError _ => true
  | _ => false

/-- Is this response an uncaught raise? -/
def OrgRespX.isBotoError : OrgRespX → Bool
  | .botoError _ => true
  | _ => false

/-- Is this response an uncaught raise? -/
def StsRespX.isBotoError : StsRespX → Bool
  | .botoError _ => true
  | _ => false

/-- The extended environment oracle. -/
structure EnvX where
  configFile : FileRead ConfigModel
  stateList : TfOutcome
  planRefresh : TfOutcome
  importResults : String → String → Nat → TfOutcome
  tfvarsFile : FileRead Tfvars
  mgmtMacie : MacieRespX
  orgAdmins : OrgRespX
  stsResp : StsRespX
  auditMacie : MacieRespX

/-- `import_resource` over the extended oracle (terraform never raises, so
only the oracle type changes). -/
def importResourceX (env : EnvX) (address resource_id : String) (dry_run : Bool) : ImportRun :=
  if dry_run then ⟨true, [Event.wouldImport address resource_id], []⟩
  else importAttemptLoop (env.importResults address resource_id) address resource_id 1 IMPORT_RETRIES

/-- `sync_cloudwatch_log_group` over the extended oracle: it performs no
boto call, so the body is unchanged. -/
def sync_cloudwatch_log_group_x (env : EnvX) (state_resources : Finset String)
    (dry_run : Bool) : SyncRes :=
  if resource_exists_in_state cw_tf_address state_resources then
    ⟨Except.ok Outcome.alreadyInState, []⟩
  else
    match env.tfvarsFile with
    | .absent => ⟨Except.ok (Outcome.skipped "No tfvars found"), []⟩
    | .malformed => ⟨Except.error "json.load raised", []⟩
    | .parsed t =>
      if t.resource_pfx == "" || t.deployment_name == "" then
        ⟨Except.ok (Outcome.skipped "Missing resource_prefix or deployment_name"), []⟩
      else
        let r := importResourceX env cw_tf_address (log_group_name t) dry_run
        ⟨Except.ok (importOutcome r), r.events⟩

/-- `sync_macie_management_account` over the extended oracle: the
`try`/`except ClientError` at lines 188-204 does not catch a
non-ClientError raise from `get_macie_session`, which escapes. -/
def sync_macie_management_account_x (env : EnvX) (state_resources : Finset String)
    (dry_run : Bool) : SyncRes :=
  if resource_exists_in_state mgmt_tf_address state_resources then
    ⟨Except.ok Outcome.alreadyInState, []⟩
  else
    match env.mgmtMacie with
    | .ok status =>
      if status == "ENABLED" then
        let r := importResourceX env mgmt_tf_address "macie" dry_run
        ⟨Except.ok (importOutcome r), Event.macieGetSessionMgmt :: r.events⟩
      else
        ⟨Except.ok (Outcome.skipped "Macie not enabled in management account"),
          [Event.macieGetSessionMgmt]⟩
    | .clientError msg =>
      if containsSub msg "Macie is not enabled" then
        ⟨Except.ok (Outcome.skipped "Macie not enabled in management account"),
          [Event.macieGetSessionMgmt]⟩
      else
        ⟨Except.ok (Outcome.probeError msg), [Event.macieGetSessionMgmt]⟩
    | .botoError msg => ⟨Except.error msg, [Event.macieGetSessionMgmt]⟩

/-- `sync_macie_org_admin` over the extended oracle: the
`except ClientError` at line 239 does not catch a non-ClientError raise. -/
def sync_macie_org_admin_x (env : EnvX) (state_resources : Finset String)
    (dry_run : Bool) : SyncRes :=
  if (get_account_ids_from_tfvars env.tfvarsFile).audit == "" then
    ⟨Except.ok (Outcome.skipped "No audit account ID found"), []⟩
  else if resource_exists_in_state org_admin_tf_address state_resources then
    ⟨Except.ok Outcome.alreadyInState, []⟩
  else
    match env.orgAdmins with
    | .ok admin_ids =>
      if admin_ids.contains (get_account_ids_from_tfvars env.tfvarsFile).audit then
        let r := importResourceX env org_admin_tf_address
          (get_account_ids_from_tfvars env.tfvarsFile).audit dry_run
        ⟨Except.ok (importOutcome r), Event.orgListDelegatedAdmins :: r.events⟩
      else
        ⟨Except.ok (Outcome.skipped "Delegated admin not configured"),
          [Event.orgListDelegatedAdmins]⟩
    | .clientError msg =>
      ⟨Except.ok (Outcome.probeError msg), [Event.orgListDelegatedAdmins]⟩
    | .botoError msg => ⟨Except.error msg, [Event.orgListDelegatedAdmins]⟩

/-- `sync_macie_audit_account` over the extended oracle: a `ClientError`
from `assume_role` is caught inside `get_cross_account_session` (skip); a
non-ClientError raise there, or from the audit-account `get_macie_session`
outside the `except ClientError` at line 276, escapes. -/
def sync_macie_audit_account_x (env : EnvX) (state_resources : Finset String)
    (primary_region : String) (dry_run : Bool) : SyncRes :=
  if (get_account_ids_from_tfvars env.tfvarsFile).audit == "" then
    ⟨Except.ok (Outcome.skipped "No audit account ID found"), []⟩
  else if resource_exists_in_state audit_tf_address state_resources then
    ⟨Except.ok Outcome.alreadyInState, []⟩
  else
    match env.stsResp with
    | .botoError msg =>
      ⟨Except.error msg,
        [Event.stsAssumeRole (get_account_ids_from_tfvars env.tfvarsFile).audit]⟩
    | .clientError msg =>
      ⟨Except.ok (Outcome.skipped "Could not assume role into audit account"),
        [Event.stsAssumeRole (get_account_ids_from_tfvars env.tfvarsFile).audit]⟩
    | .ok =>
      match env.auditMacie with
      | .ok status =>
        if status == "ENABLED" then
          let r := importResourceX env audit_tf_address "macie" dry_run
          ⟨Except.ok (importOutcome r),
            Event.stsAssumeRole (get_account_ids_from_tfvars env.tfvarsFile).audit
              :: Event.macieGetSessionAudit :: r.events⟩
        else
          ⟨Except.ok (Outcome.skipped "Macie not enabled in audit account"),
            [Event.stsAssumeRole (get_account_ids_from_tfvars env.tfvarsFile).audit,
              Event.macieGetSessionAudit]⟩
      | .clientError msg =>
        if containsSub msg "Macie is not enabled" then
          ⟨Except.ok (Outcome.skipped "Macie not enabled in audit account"),
            [Event.stsAssumeRole (get_account_ids_from_tfvars env.tfvarsFile).audit,
              Event.macieGetSessionAudit]⟩
        else
          ⟨Except.ok (Outcome.probeError msg),
            [Event.stsAssumeRole (get_account_ids_from_tfvars env.tfvarsFile).audit,
              Event.macieGetSessionAudit]⟩
      | .botoError msg =>
        ⟨Except.error msg,
          [Event.stsAssumeRole (get_account_ids_from_tfvars env.tfvarsFile).audit,
            Event.macieGetSessionAudit]⟩

/-- `main` over the extended oracle: identical control flow; now any sync
step can abort the run via an uncaught raise. -/
def mainRunX (env : EnvX) (dry_run : Bool) : RunResult :=
  match env.configFile with
  | .absent => ⟨[], [], Except.error "FileNotFoundError"⟩
  | .malformed => ⟨[], [], Except.error "config parse raised"⟩
  | .parsed config =>
    let primary_region := config.primary_region.getD "us-east-1"
    let state_resources := get_state_resources env.stateList
    let warm : List Event :=
      if state_resources.card == 0 && !dry_run then [Event.tfPlanRefresh] else []
    let pre := Event.tfStateList :: warm
    let r1 := sync_cloudwatch_log_group_x env state_resources dry_run
    match r1.outcome with
    | .error e => ⟨pre ++ r1.events, [], Except.error e⟩
    | .ok o1 =>
      let r2 := sync_macie_management_account_x env state_resources dry_run
      match r2.outcome with
      | .error e => ⟨pre ++ r1.events ++ r2.events, [o1], Except.error e⟩
      | .ok o2 =>
        let r3 := sync_macie_org_admin_x env state_resources dry_run
        match r3.outcome with
        | .error e => ⟨pre ++ r1.events ++ r2.events ++ r3.events, [o1, o2], Except.error e⟩
        | .ok o3 =>
          let r4 := sync_macie_audit_account_x env state_resources primary_region dry_run
          match r4.outcome with
          | .error e =>
            ⟨pre ++ r1.events ++ r2.events ++ r3.events ++ r4.events, [o1, o2, o3],
              Except.error e⟩
          | .ok o4 =>
            ⟨pre ++ r1.events ++ r2.events ++ r3.events ++ r4.events, [o1, o2, o3, o4],
              Except.ok 0⟩

/-- Embedding of the base oracle into the extended one: the base model is
exactly the restriction of the extended one to runs with no uncaught
raise (a failed role assumption becomes the caught `ClientError`). -/
def Env.toX (env : Env) : EnvX where
  configFile := env.configFile
  stateList := env.stateList
  planRefresh := env.planRefresh
  importResults := env.importResults
  tfvarsFile := env.tfvarsFile
  mgmtMacie := match env.mgmtMacie with
    | .ok s => .ok s
    | .clientError m => .clientError m
  orgAdmins := match env.orgAdmins with
    | .ok l => .ok l
    | .clientError m => .clientError m
  stsResp := if env.assumeRoleOk then .ok else .clientError "AccessDenied"
  auditMacie := match env.auditMacie with
    | .ok s => .ok s
    | .clientError m => .clientError m


/-! Concrete environments used by counterexamples and witnesses. -/

/-- A run with empty terraform state, a tfvars file lacking an audit
account id, Macie not enabled in the management account, and a terraform
state-store import command that always fails with a transient error. -/
def envC1 : Env where
  configFile := .parsed ⟨some "us-east-1"⟩
  stateList := .exitCode 0 ""
  planRefresh := .exitCode 0 ""
  importResults := fun _ _ _ => .exitCode 1 "Error: cannot import"
  tfvarsFile := .parsed ⟨"111111111111", "", "acme", "dev"⟩
  mgmtMacie := .clientError "An error occurred: Macie is not enabled"
  orgAdmins := .ok []
  assumeRoleOk := false
  auditMacie := .ok "PAUSED"

/-- Same run but the tfvars file fails to parse. -/
def envC6 : Env := { envC1 with tfvarsFile := .malformed }

/-- Same run but with no tfvars file at all. -/
def envC5 : Env := { envC1 with tfvarsFile := .absent }

/-- A run whose import attempts all succeed, with deployment name
"bluesky". -/
def envC7a : Env :=
  { envC1 with
    tfvarsFile := .parsed ⟨"111111111111", "", "acme", "bluesky"⟩
    importResults := fun _ _ _ => .exitCode 0 "Import successful" }

/-- Identical to `envC7a` except for the deployment name in tfvars. -/
def envC7b : Env :=
  { envC7a with tfvarsFile := .parsed ⟨"111111111111", "", "acme", "greenfield"⟩ }

/-- A run whose first import attempt fails with an output reporting the
resource as already managed. -/
def envC3 : Env :=
  { envC1 with
    importResults := fun _ _ _ =>
      .exitCode 1 "Error: Resource already managed by Terraform" }

/-- `envC1` carried to the extended oracle (no uncaught raises): cross
account role assumption fails with a caught `ClientError`. -/
def envXok : EnvX where
  configFile := .parsed ⟨some "us-east-1"⟩
  stateList := .exitCode 0 ""
  planRefresh := .exitCode 0 ""
  importResults := fun _ _ _ => .exitCode 1 "Error: cannot import"
  tfvarsFile := .parsed ⟨"111111111111", "", "acme", "dev"⟩
  mgmtMacie := .clientError "An error occurred: Macie is not enabled"
  orgAdmins := .ok []
  stsResp := .clientError "AccessDenied"
  auditMacie := .ok "PAUSED"

/-- The extended run with no config file at all. -/
def envXnoConfig : EnvX := { envXok with configFile := .absent }

/-- An extended run with an audit account configured whose role assumption
raises a non-ClientError exception (endpoint unreachable). -/
def envXboto : EnvX :=
  { envXok with
    tfvarsFile := .parsed ⟨"111111111111", "222222222222", "acme", "dev"⟩
    stsResp := .botoError "EndpointConnectionError" }

/-! Helper lemmas about the import retry loop and call-pair sets. -/

theorem importAttemptLoop_events_all (res : Nat → TfOutcome) (a i : String) :
    ∀ rem att, ∀ e ∈ (importAttemptLoop res a i att rem).events, e = Event.tfImport a i := by
  intro rem
  induction rem with
  | zero => intro att e he; simp [importAttemptLoop] at he
  | succ n ih =>
    intro att e he
    simp only [importAttemptLoop] at he
    split at he
    · simp at he; exact he
    · split at he
      · simp at he; exact he
      · split at he
        · simp at he
          rcases he with h | h
          · exact h
          · exact ih (att + 1) e h
        · simp at he; exact he

theorem importAttemptLoop_ne_nil (res : Nat → TfOutcome) (a i : String) (att rem : Nat)
    (h : 0 < rem) : (importAttemptLoop res a i att rem).events ≠ [] := by
  cases rem with
  | zero => exact absurd h (by simp)
  | succ n =>
    simp only [importAttemptLoop]
    split
    · simp
    · split
      · simp
      · split
        · simp
        · simp

theorem importResource_dry (env : Env) (a i : String) :
    importResource env a i true = ⟨true, [Event.wouldImport a i], []⟩ := rfl

theorem importResource_false_def (env : Env) (a i : String) :
    importResource env a i false
      = importAttemptLoop (env.importResults a i) a i 1 IMPORT_RETRIES := rfl

theorem importResource_false_events (env : Env) (a i : String) :
    ∀ e ∈ (importResource env a i false).events, e = Event.tfImport a i := by
  intro e he
  rw [importResource_false_def] at he
  exact importAttemptLoop_events_all _ a i IMPORT_RETRIES 1 e he

theorem importResource_false_ne_nil (env : Env) (a i : String) :
    (importResource env a i false).events ≠ [] := by
  rw [importResource_false_def]
  exact importAttemptLoop_ne_nil _ a i 1 IMPORT_RETRIES (by decide)

theorem importResource_events_shape (env : Env) (a i : String) (dry : Bool) :
    ∀ e ∈ (importResource env a i dry).events,
      e = Event.tfImport a i ∨ e = Event.wouldImport a i := by
  cases dry
  · intro e he; exact Or.inl (importResource_false_events env a i e he)
  · intro e he; rw [importResource_dry] at he; simp at he; exact Or.inr he

theorem importPairs_nil : importPairs [] = ∅ := rfl

theorem wouldPairs_nil : wouldPairs [] = ∅ := rfl

theorem importPairs_append (l1 l2 : List Event) :
    importPairs (l1 ++ l2) = importPairs l1 ∪ importPairs l2 := by
  simp [importPairs, List.filterMap_append]

theorem wouldPairs_append (l1 l2 : List Event) :
    wouldPairs (l1 ++ l2) = wouldPairs l1 ∪ wouldPairs l2 := by
  simp [wouldPairs, List.filterMap_append]

theorem importPairs_cons_none (e : Event) (l : List Event) (h : importPairOf e = none) :
    importPairs (e :: l) = importPairs l := by
  simp [importPairs, List.filterMap_cons, h]

theorem wouldPairs_cons_none (e : Event) (l : List Event) (h : wouldPairOf e = none) :
    wouldPairs (e :: l) = wouldPairs l := by
  simp [wouldPairs, List.filterMap_cons, h]

theorem importPairs_eq_empty (l : List Event) (h : ∀ e ∈ l, importPairOf e = none) :
    importPairs l = ∅ := by
  induction l with
  | nil => rfl
  | cons x t ih =>
    rw [importPairs_cons_none x t (h x (by simp))]
    exact ih (fun e he => h e (by simp [he]))

theorem wouldPairs_eq_empty (l : List Event) (h : ∀ e ∈ l, wouldPairOf e = none) :
    wouldPairs l = ∅ := by
  induction l with
  | nil => rfl
  | cons x t ih =>
    rw [wouldPairs_cons_none x t (h x (by simp))]
    exact ih (fun e he => h e (by simp [he]))

theorem importPairs_all_tfImport (a i : String) :
    ∀ l, (∀ e ∈ l, e = Event.tfImport a i) → l ≠ [] → importPairs l = {(a, i)} := by
  intro l
  induction l with
  | nil => intro _ h; exact absurd rfl h
  | cons x t ih =>
    intro hall _
    have hx : x = Event.tfImport a i := hall x (by simp)
    subst hx
    have h2 : importPairs (Event.tfImport a i :: t) = insert (a, i) (importPairs t) := by
      simp [importPairs, List.filterMap_cons, importPairOf]
    by_cases ht : t = []
    · subst ht; rw [h2, importPairs_nil]; rfl
    · rw [h2, ih (fun e he => hall e (by simp [he])) ht, Finset.insert_eq_self]
      simp

theorem importResource_false_importPairs (env : Env) (a i : String) :
    importPairs (importResource env a i false).events = {(a, i)} :=
  importPairs_all_tfImport a i _ (importResource_false_events env a i)
    (importResource_false_ne_nil env a i)

theorem importResource_false_wouldPairs (env : Env) (a i : String) :
    wouldPairs (importResource env a i false).events = ∅ :=
  wouldPairs_eq_empty _ (fun e he => by rw [importResource_false_events env a i e he]; rfl)

theorem importResource_dry_wouldPairs (env : Env) (a i : String) :
    wouldPairs (importResource env a i true).events = {(a, i)} := by
  rw [importResource_dry]
  simp [wouldPairs, wouldPairOf, List.filterMap]

theorem importResource_dry_importPairs (env : Env) (a i : String) :
    importPairs (importResource env a i true).events = ∅ := by
  rw [importResource_dry]
  simp [importPairs, importPairOf, List.filterMap]

theorem mode_pairs_of_shape (env : Env) (a i : String) (St Sf : List Event)
    (h : (St = Sf ∧ importPairs Sf = ∅ ∧ wouldPairs St = ∅) ∨
         (∃ pre, St = pre ++ (importResource env a i true).events ∧
            Sf = pre ++ (importResource env a i false).events ∧
            importPairs pre = ∅ ∧ wouldPairs pre = ∅)) :
    wouldPairs St = importPairs Sf ∧ importPairs St = ∅ := by
  rcases h with ⟨heq, hif, hwt⟩ | ⟨pre, ht, hf, hip, hwp⟩
  · subst heq
    rw [hif, hwt]
    exact ⟨rfl, rfl⟩
  · subst ht; subst hf
    rw [wouldPairs_append, importPairs_append, importPairs_append, hip, hwp,
      importResource_dry_wouldPairs, importResource_false_importPairs,
      importResource_dry_importPairs]
    simp

/-! Per-step lemmas: the branch taken by each sync step does not depend on
the dry-run flag, and each step either performs no import call at all or
performs exactly one `importResource` call with a fixed address and an
identifier independent of the probe responses. -/

theorem cw_both_modes (env : Env) (sr : Finset String) :
    ((sync_cloudwatch_log_group env sr true).events
        = (sync_cloudwatch_log_group env sr false).events ∧
      importPairs (sync_cloudwatch_log_group env sr false).events = ∅ ∧
      wouldPairs (sync_cloudwatch_log_group env sr true).events = ∅) ∨
    (∃ t, env.tfvarsFile = FileRead.parsed t ∧
      (sync_cloudwatch_log_group env sr true).events
        = (importResource env cw_tf_address (log_group_name t) true).events ∧
      (sync_cloudwatch_log_group env sr false).events
        = (importResource env cw_tf_address (log_group_name t) false).events) := by
  unfold sync_cloudwatch_log_group
  split_ifs with hex
  · left; exact ⟨rfl, rfl, rfl⟩
  · cases htf : env.tfvarsFile with
    | absent => left; exact ⟨rfl, rfl, rfl⟩
    | malformed => left; exact ⟨rfl, rfl, rfl⟩
    | parsed t =>
      by_cases hfld : (t.resource_pfx == "" || t.deployment_name == "") = true
      · simp only [if_pos hfld]
        left; exact ⟨trivial, rfl, rfl⟩
      · simp only [if_neg hfld]
        right; exact ⟨t, rfl, rfl, rfl⟩

theorem mgmt_both_modes (env : Env) (sr : Finset String) :
    ((sync_macie_management_account env sr true).events
        = (sync_macie_management_account env sr false).events ∧
      importPairs (sync_macie_management_account env sr false).events = ∅ ∧
      wouldPairs (sync_macie_management_account env sr true).events = ∅) ∨
    ((sync_macie_management_account env sr true).events
        = [Event.macieGetSessionMgmt] ++ (importResource env mgmt_tf_address "macie" true).events ∧
     (sync_macie_management_account env sr false).events
        = [Event.macieGetSessionMgmt] ++ (importResource env mgmt_tf_address "macie" false).events) := by
  unfold sync_macie_management_account
  split_ifs with hex
  · left; exact ⟨rfl, rfl, rfl⟩
  · cases hm : env.mgmtMacie with
    | ok status =>
      by_cases hs : (status == "ENABLED") = true
      · simp only [if_pos hs]
        right; exact ⟨rfl, rfl⟩
      · simp only [if_neg hs]
        left; exact ⟨trivial, rfl, rfl⟩
    | clientError msg =>
      by_cases hc : containsSub msg "Macie is not enabled" = true
      · simp only [if_pos hc]
        left; exact ⟨trivial, rfl, rfl⟩
      · simp only [if_neg hc]
        left; exact ⟨trivial, rfl, rfl⟩

theorem org_both_modes (env : Env) (sr : Finset String) :
    ((sync_macie_org_admin env sr true).events
        = (sync_macie_org_admin env sr false).events ∧
      importPairs (sync_macie_org_admin env sr false).events = ∅ ∧
      wouldPairs (sync_macie_org_admin env sr true).events = ∅) ∨
    ((sync_macie_org_admin env sr true).events
        = [Event.orgListDelegatedAdmins]
          ++ (importResource env org_admin_tf_address
              (get_account_ids_from_tfvars env.tfvarsFile).audit true).events ∧
     (sync_macie_org_admin env sr false).events
        = [Event.orgListDelegatedAdmins]
          ++ (importResource env org_admin_tf_address
              (get_account_ids_from_tfvars env.tfvarsFile).audit false).events) := by
  unfold sync_macie_org_admin
  split_ifs with h1 h2
  · left; exact ⟨rfl, rfl, rfl⟩
  · left; exact ⟨rfl, rfl, rfl⟩
  · cases ho : env.orgAdmins with
    | ok admin_ids =>
      by_cases hc : admin_ids.contains (get_account_ids_from_tfvars env.tfvarsFile).audit = true
      · simp only [if_pos hc]
        right; exact ⟨rfl, rfl⟩
      · simp only [if_neg hc]
        left; exact ⟨trivial, rfl, rfl⟩
    | clientError msg =>
      left; exact ⟨rfl, rfl, rfl⟩

theorem audit_both_modes (env : Env) (sr : Finset String) (region : String) :
    ((sync_macie_audit_account env sr region true).events
        = (sync_macie_audit_account env sr region false).events ∧
      importPairs (sync_macie_audit_account env sr region false).events = ∅ ∧
      wouldPairs (sync_macie_audit_account env sr region true).events = ∅) ∨
    ((sync_macie_audit_account env sr region true).events
        = [Event.stsAssumeRole (get_account_ids_from_tfvars env.tfvarsFile).audit,
            Event.macieGetSessionAudit]
          ++ (importResource env audit_tf_address "macie" true).events ∧
     (sync_macie_audit_account env sr region false).events
        = [Event.stsAssumeRole (get_account_ids_from_tfvars env.tfvarsFile).audit,
            Event.macieGetSessionAudit]
          ++ (importResource env audit_tf_address "macie" false).events) := by
  unfold sync_macie_audit_account
  split_ifs with h1 h2 h3
  · left; exact ⟨rfl, rfl, rfl⟩
  · left; exact ⟨rfl, rfl, rfl⟩
  · left; exact ⟨rfl, rfl, rfl⟩
  · cases ha : env.auditMacie with
    | ok status =>
      by_cases hs : (status == "ENABLED") = true
      · simp only [if_pos hs]
        right; exact ⟨rfl, rfl⟩
      · simp only [if_neg hs]
        left; exact ⟨trivial, rfl, rfl⟩
    | clientError msg =>
      by_cases hc : containsSub msg "Macie is not enabled" = true
      · simp only [if_pos hc]
        left; exact ⟨trivial, rfl, rfl⟩
      · simp only [if_neg hc]
        left; exact ⟨trivial, rfl, rfl⟩

/-- The only way a sync step raises: malformed tfvars in the log-group step
with the address not yet tracked (the unprotected `json.load` on line
159). -/
theorem cw_malformed_eq (env : Env) (sr : Finset String) (dry : Bool)
    (h1 : env.tfvarsFile = FileRead.malformed)
    (h2 : resource_exists_in_state cw_tf_address sr = false) :
    sync_cloudwatch_log_group env sr dry = ⟨Except.error "json.load raised", []⟩ := by
  unfold sync_cloudwatch_log_group
  rw [h2, h1]
  rfl

theorem cw_ok (env : Env) (sr : Finset String) (dry : Bool)
    (h : env.tfvarsFile ≠ FileRead.malformed ∨
         resource_exists_in_state cw_tf_address sr = true) :
    ∃ o, (sync_cloudwatch_log_group env sr dry).outcome = Except.ok o := by
  unfold sync_cloudwatch_log_group
  split_ifs with hex
  · exact ⟨_, rfl⟩
  · rcases h with h | h
    · cases htf : env.tfvarsFile with
      | absent => exact ⟨_, rfl⟩
      | malformed => exact absurd htf h
      | parsed t =>
        by_cases hfld : (t.resource_pfx == "" || t.deployment_name == "") = true
        · simp only [if_pos hfld]; exact ⟨_, rfl⟩
        · simp only [if_neg hfld]; exact ⟨_, rfl⟩
    · exact absurd h hex

theorem mgmt_ok (env : Env) (sr : Finset String) (dry : Bool) :
    ∃ o, (sync_macie_management_account env sr dry).outcome = Except.ok o := by
  unfold sync_macie_management_account
  split_ifs with hex
  · exact ⟨_, rfl⟩
  · cases hm : env.mgmtMacie with
    | ok status =>
      by_cases hs : (status == "ENABLED") = true
      · simp only [if_pos hs]; exact ⟨_, rfl⟩
      · simp only [if_neg hs]; exact ⟨_, rfl⟩
    | clientError msg =>
      by_cases hc : containsSub msg "Macie is not enabled" = true
      · simp only [if_pos hc]; exact ⟨_, rfl⟩
      · simp only [if_neg hc]; exact ⟨_, rfl⟩

theorem org_ok (env : Env) (sr : Finset String) (dry : Bool) :
    ∃ o, (sync_macie_org_admin env sr dry).outcome = Except.ok o := by
  unfold sync_macie_org_admin
  split_ifs with h1 h2
  · exact ⟨_, rfl⟩
  · exact ⟨_, rfl⟩
  · cases ho : env.orgAdmins with
    | ok admin_ids =>
      by_cases hc : admin_ids.contains (get_account_ids_from_tfvars env.tfvarsFile).audit = true
      · simp only [if_pos hc]; exact ⟨_, rfl⟩
      · simp only [if_neg hc]; exact ⟨_, rfl⟩
    | clientError msg => exact ⟨_, rfl⟩

theorem audit_ok (env : Env) (sr : Finset String) (region : String) (dry : Bool) :
    ∃ o, (sync_macie_audit_account env sr region dry).outcome = Except.ok o := by
  unfold sync_macie_audit_account
  split_ifs with h1 h2 h3
  · exact ⟨_, rfl⟩
  · exact ⟨_, rfl⟩
  · exact ⟨_, rfl⟩
  · cases ha : env.auditMacie with
    | ok status =>
      by_cases hs : (status == "ENABLED") = true
      · simp only [if_pos hs]; exact ⟨_, rfl⟩
      · simp only [if_neg hs]; exact ⟨_, rfl⟩
    | clientError msg =>
      by_cases hc : containsSub msg "Macie is not enabled" = true
      · simp only [if_pos hc]; exact ⟨_, rfl⟩
      · simp only [if_neg hc]; exact ⟨_, rfl⟩

/-- The shape of a completed run (no step raised): all four steps are
processed in order and the exit status is `0`. -/
theorem mainRun_parsed_eq (env : Env) (dry : Bool) (c : ConfigModel)
    (o1 o2 o3 o4 : Outcome)
    (hc : env.configFile = FileRead.parsed c)
    (h1 : (sync_cloudwatch_log_group env (get_state_resources env.stateList) dry).outcome
          = Except.ok o1)
    (h2 : (sync_macie_management_account env (get_state_resources env.stateList) dry).outcome
          = Except.ok o2)
    (h3 : (sync_macie_org_admin env (get_state_resources env.stateList) dry).outcome
          = Except.ok o3)
    (h4 : (sync_macie_audit_account env (get_state_resources env.stateList)
            (c.primary_region.getD "us-east-1") dry).outcome = Except.ok o4) :
    mainRun env dry =
      ⟨(Event.tfStateList ::
          (if (get_state_resources env.stateList).card == 0 && !dry
            then [Event.tfPlanRefresh] else []))
        ++ (sync_cloudwatch_log_group env (get_state_resources env.stateList) dry).events
        ++ (sync_macie_management_account env (get_state_resources env.stateList) dry).events
        ++ (sync_macie_org_admin env (get_state_resources env.stateList) dry).events
        ++ (sync_macie_audit_account env (get_state_resources env.stateList)
            (c.primary_region.getD "us-east-1") dry).events,
        [o1, o2, o3, o4], Except.ok 0⟩ := by
  unfold mainRun
  rw [hc]
  simp only [h1, h2, h3, h4]

/-- The shape of a run aborted by the log-group step raising. -/
theorem mainRun_parsed_abort (env : Env) (dry : Bool) (c : ConfigModel) (e : String)
    (hc : env.configFile = FileRead.parsed c)
    (h1 : (sync_cloudwatch_log_group env (get_state_resources env.stateList) dry).outcome
          = Except.error e) :
    mainRun env dry =
      ⟨(Event.tfStateList ::
          (if (get_state_resources env.stateList).card == 0 && !dry
            then [Event.tfPlanRefresh] else []))
        ++ (sync_cloudwatch_log_group env (get_state_resources env.stateList) dry).events,
        [], Except.error e⟩ := by
  unfold mainRun
  rw [hc]
  simp only [h1]

theorem mainRun_config_absent (env : Env) (dry : Bool)
    (h : env.configFile = FileRead.absent) :
    mainRun env dry = ⟨[], [], Except.error "FileNotFoundError"⟩ := by
  unfold mainRun
  rw [h]

theorem mainRun_config_malformed (env : Env) (dry : Bool)
    (h : env.configFile = FileRead.malformed) :
    mainRun env dry = ⟨[], [], Except.error "config parse raised"⟩ := by
  unfold mainRun
  rw [h]

/-- Every run in which the config parses and the tfvars file is not
malformed processes all four resource kinds and returns exit code `0`,
whatever the probe, broker and import responses are. -/
theorem mainRun_completes (env : Env) (dry : Bool) (c : ConfigModel)
    (hc : env.configFile = FileRead.parsed c)
    (htf : env.tfvarsFile ≠ FileRead.malformed ∨
      resource_exists_in_state cw_tf_address (get_state_resources env.stateList) = true) :
    (mainRun env dry).exit = Except.ok 0 ∧ (mainRun env dry).outcomes.length = 4 := by
  obtain ⟨o1, h1⟩ := cw_ok env (get_state_resources env.stateList) dry htf
  obtain ⟨o2, h2⟩ := mgmt_ok env (get_state_resources env.stateList) dry
  obtain ⟨o3, h3⟩ := org_ok env (get_state_resources env.stateList) dry
  obtain ⟨o4, h4⟩ := audit_ok env (get_state_resources env.stateList)
    (c.primary_region.getD "us-east-1") dry
  rw [mainRun_parsed_eq env dry c o1 o2 o3 o4 hc h1 h2 h3 h4]
  exact ⟨rfl, rfl⟩

theorem cw_events_shape (env : Env) (sr : Finset String) (dry : Bool) :
    ∀ e ∈ (sync_cloudwatch_log_group env sr dry).events,
      ∃ t, env.tfvarsFile = FileRead.parsed t ∧
        (e = Event.tfImport cw_tf_address (log_group_name t) ∨
         e = Event.wouldImport cw_tf_address (log_group_name t)) := by
  intro e he
  unfold sync_cloudwatch_log_group at he
  split_ifs at he with hex
  · simp at he
  · cases htf : env.tfvarsFile with
    | absent => simp only [htf] at he; simp at he
    | malformed => simp only [htf] at he; simp at he
    | parsed t =>
      simp only [htf] at he
      by_cases hfld : (t.resource_pfx == "" || t.deployment_name == "") = true
      · simp only [if_pos hfld] at he; simp at he
      · simp only [if_neg hfld] at he
        exact ⟨t, rfl, importResource_events_shape env cw_tf_address (log_group_name t) dry e he⟩

theorem mgmt_events_shape (env : Env) (sr : Finset String) (dry : Bool) :
    ∀ e ∈ (sync_macie_management_account env sr dry).events,
      e = Event.macieGetSessionMgmt ∨ e = Event.tfImport mgmt_tf_address "macie" ∨
      e = Event.wouldImport mgmt_tf_address "macie" := by
  intro e he
  unfold sync_macie_management_account at he
  split_ifs at he with hex
  · simp at he
  · cases hm : env.mgmtMacie with
    | ok status =>
      simp only [hm] at he
      by_cases hs : (status == "ENABLED") = true
      · simp only [if_pos hs] at he
        simp only [List.mem_cons] at he
        rcases he with he | he
        · exact Or.inl he
        · rcases importResource_events_shape env mgmt_tf_address "macie" dry e he with h | h
          · exact Or.inr (Or.inl h)
          · exact Or.inr (Or.inr h)
      · simp only [if_neg hs] at he; simp at he; exact Or.inl he
    | clientError msg =>
      simp only [hm] at he
      by_cases hc : containsSub msg "Macie is not enabled" = true
      · simp only [if_pos hc] at he; simp at he; exact Or.inl he
      · simp only [if_neg hc] at he; simp at he; exact Or.inl he

theorem org_events_shape (env : Env) (sr : Finset String) (dry : Bool) :
    ∀ e ∈ (sync_macie_org_admin env sr dry).events,
      e = Event.orgListDelegatedAdmins ∨
      e = Event.tfImport org_admin_tf_address (get_account_ids_from_tfvars env.tfvarsFile).audit ∨
      e = Event.wouldImport org_admin_tf_address (get_account_ids_from_tfvars env.tfvarsFile).audit := by
  intro e he
  unfold sync_macie_org_admin at he
  split_ifs at he with h1 h2
  · simp at he
  · simp at he
  · cases ho : env.orgAdmins with
    | ok admin_ids =>
      simp only [ho] at he
      by_cases hc : admin_ids.contains (get_account_ids_from_tfvars env.tfvarsFile).audit = true
      · simp only [if_pos hc] at he
        simp only [List.mem_cons] at he
        rcases he with he | he
        · exact Or.inl he
        · rcases importResource_events_shape env org_admin_tf_address
            (get_account_ids_from_tfvars env.tfvarsFile).audit dry e he with h | h
          · exact Or.inr (Or.inl h)
          · exact Or.inr (Or.inr h)
      · simp only [if_neg hc] at he; simp at he; exact Or.inl he
    | clientError msg =>
      simp only [ho] at he; simp at he; exact Or.inl he

theorem audit_events_shape (env : Env) (sr : Finset String) (region : String) (dry : Bool) :
    ∀ e ∈ (sync_macie_audit_account env sr region dry).events,
      e = Event.stsAssumeRole (get_account_ids_from_tfvars env.tfvarsFile).audit ∨
      e = Event.macieGetSessionAudit ∨
      e = Event.tfImport audit_tf_address "macie" ∨
      e = Event.wouldImport audit_tf_address "macie" := by
  intro e he
  unfold sync_macie_audit_account at he
  split_ifs at he with h1 h2 h3
  · simp at he
  · simp at he
  · simp at he; exact Or.inl he
  · cases ha : env.auditMacie with
    | ok status =>
      simp only [ha] at he
      by_cases hs : (status == "ENABLED") = true
      · simp only [if_pos hs] at he
        simp only [List.mem_cons] at he
        rcases he with he | he
        · exact Or.inl he
        · rcases he with he | he
          · exact Or.inr (Or.inl he)
          · rcases importResource_events_shape env audit_tf_address "macie" dry e he with h | h
            · exact Or.inr (Or.inr (Or.inl h))
            · exact Or.inr (Or.inr (Or.inr h))
      · simp only [if_neg hs] at he; simp at he
        rcases he with he | he
        · exact Or.inl he
        · exact Or.inr (Or.inl he)
    | clientError msg =>
      simp only [ha] at he
      by_cases hc : containsSub msg "Macie is not enabled" = true
      · simp only [if_pos hc] at he; simp at he
        rcases he with he | he
        · exact Or.inl he
        · exact Or.inr (Or.inl he)
      · simp only [if_neg hc] at he; simp at he
        rcases he with he | he
        · exact Or.inl he
        · exact Or.inr (Or.inl he)

theorem cw_no_stateList (env : Env) (sr : Finset String) (dry : Bool) :
    Event.tfStateList ∉ (sync_cloudwatch_log_group env sr dry).events := by
  intro h
  obtain ⟨t, _, h2⟩ := cw_events_shape env sr dry _ h
  rcases h2 with h2 | h2 <;> exact Event.noConfusion h2

theorem mgmt_no_stateList (env : Env) (sr : Finset String) (dry : Bool) :
    Event.tfStateList ∉ (sync_macie_management_account env sr dry).events := by
  intro h
  rcases mgmt_events_shape env sr dry _ h with h2 | h2 | h2 <;> exact Event.noConfusion h2

theorem org_no_stateList (env : Env) (sr : Finset String) (dry : Bool) :
    Event.tfStateList ∉ (sync_macie_org_admin env sr dry).events := by
  intro h
  rcases org_events_shape env sr dry _ h with h2 | h2 | h2 <;> exact Event.noConfusion h2

theorem audit_no_stateList (env : Env) (sr : Finset String) (region : String) (dry : Bool) :
    Event.tfStateList ∉ (sync_macie_audit_account env sr region dry).events := by
  intro h
  rcases audit_events_shape env sr region dry _ h with h2 | h2 | h2 | h2 <;>
    exact Event.noConfusion h2

theorem pre_pairs (b : Bool) :
    importPairs (Event.tfStateList :: (if b = true then [Event.tfPlanRefresh] else [])) = ∅ ∧
    wouldPairs (Event.tfStateList :: (if b = true then [Event.tfPlanRefresh] else [])) = ∅ := by
  cases b
  · exact ⟨rfl, rfl⟩
  · exact ⟨rfl, rfl⟩

theorem pre_count (b : Bool) :
    (Event.tfStateList :: (if b = true then [Event.tfPlanRefresh] else [])).count
      Event.tfStateList = 1 := by
  cases b
  · rfl
  · rfl

theorem cw_mode_pairs (env : Env) (sr : Finset String) :
    wouldPairs (sync_cloudwatch_log_group env sr true).events
      = importPairs (sync_cloudwatch_log_group env sr false).events ∧
    importPairs (sync_cloudwatch_log_group env sr true).events = ∅ := by
  rcases cw_both_modes env sr with h | ⟨t, _, ht, hf⟩
  · exact mode_pairs_of_shape env cw_tf_address "" _ _ (Or.inl h)
  · refine mode_pairs_of_shape env cw_tf_address (log_group_name t) _ _
      (Or.inr ⟨[], ?_, ?_, rfl, rfl⟩)
    · simpa using ht
    · simpa using hf

theorem mgmt_mode_pairs (env : Env) (sr : Finset String) :
    wouldPairs (sync_macie_management_account env sr true).events
      = importPairs (sync_macie_management_account env sr false).events ∧
    importPairs (sync_macie_management_account env sr true).events = ∅ := by
  rcases mgmt_both_modes env sr with h | ⟨ht, hf⟩
  · exact mode_pairs_of_shape env mgmt_tf_address "" _ _ (Or.inl h)
  · exact mode_pairs_of_shape env mgmt_tf_address "macie" _ _
      (Or.inr ⟨[Event.macieGetSessionMgmt], ht, hf, rfl, rfl⟩)

theorem org_mode_pairs (env : Env) (sr : Finset String) :
    wouldPairs (sync_macie_org_admin env sr true).events
      = importPairs (sync_macie_org_admin env sr false).events ∧
    importPairs (sync_macie_org_admin env sr true).events = ∅ := by
  rcases org_both_modes env sr with h | ⟨ht, hf⟩
  · exact mode_pairs_of_shape env org_admin_tf_address "" _ _ (Or.inl h)
  · exact mode_pairs_of_shape env org_admin_tf_address
      (get_account_ids_from_tfvars env.tfvarsFile).audit _ _
      (Or.inr ⟨[Event.orgListDelegatedAdmins], ht, hf, rfl, rfl⟩)

theorem audit_mode_pairs (env : Env) (sr : Finset String) (region : String) :
    wouldPairs (sync_macie_audit_account env sr region true).events
      = importPairs (sync_macie_audit_account env sr region false).events ∧
    importPairs (sync_macie_audit_account env sr region true).events = ∅ := by
  rcases audit_both_modes env sr region with h | ⟨ht, hf⟩
  · exact mode_pairs_of_shape env audit_tf_address "" _ _ (Or.inl h)
  · exact mode_pairs_of_shape env audit_tf_address "macie" _ _
      (Or.inr ⟨[Event.stsAssumeRole (get_account_ids_from_tfvars env.tfvarsFile).audit,
        Event.macieGetSessionAudit], ht, hf, rfl, rfl⟩)

theorem mainRun_mode_pairs_nonabort (env : Env) (c : ConfigModel)
    (hcfg : env.configFile = FileRead.parsed c)
    (h : env.tfvarsFile ≠ FileRead.malformed ∨
         resource_exists_in_state cw_tf_address (get_state_resources env.stateList) = true) :
    wouldPairs (mainRun env true).events = importPairs (mainRun env false).events ∧
    importPairs (mainRun env true).events = ∅ := by
  obtain ⟨o1t, h1t⟩ := cw_ok env (get_state_resources env.stateList) true h
  obtain ⟨o2t, h2t⟩ := mgmt_ok env (get_state_resources env.stateList) true
  obtain ⟨o3t, h3t⟩ := org_ok env (get_state_resources env.stateList) true
  obtain ⟨o4t, h4t⟩ := audit_ok env (get_state_resources env.stateList)
    (c.primary_region.getD "us-east-1") true
  obtain ⟨o1f, h1f⟩ := cw_ok env (get_state_resources env.stateList) false h
  obtain ⟨o2f, h2f⟩ := mgmt_ok env (get_state_resources env.stateList) false
  obtain ⟨o3f, h3f⟩ := org_ok env (get_state_resources env.stateList) false
  obtain ⟨o4f, h4f⟩ := audit_ok env (get_state_resources env.stateList)
    (c.primary_region.getD "us-east-1") false
  rw [mainRun_parsed_eq env true c o1t o2t o3t o4t hcfg h1t h2t h3t h4t,
    mainRun_parsed_eq env false c o1f o2f o3f o4f hcfg h1f h2f h3f h4f]
  have p1 := cw_mode_pairs env (get_state_resources env.stateList)
  have p2 := mgmt_mode_pairs env (get_state_resources env.stateList)
  have p3 := org_mode_pairs env (get_state_resources env.stateList)
  have p4 := audit_mode_pairs env (get_state_resources env.stateList)
    (c.primary_region.getD "us-east-1")
  have hpt := pre_pairs ((get_state_resources env.stateList).card == 0 && !true)
  have hpf := pre_pairs ((get_state_resources env.stateList).card == 0 && !false)
  constructor
  · simp only [wouldPairs_append, importPairs_append]
    rw [hpt.2, hpf.1, p1.1, p2.1, p3.1, p4.1]
  · simp only [importPairs_append]
    rw [hpt.1, p1.2, p2.2, p3.2, p4.2]
    simp

theorem mainRun_mode_pairs (env : Env) :
    wouldPairs (mainRun env true).events = importPairs (mainRun env false).events ∧
    importPairs (mainRun env true).events = ∅ := by
  cases hcfg : env.configFile with
  | absent =>
    rw [mainRun_config_absent env true hcfg, mainRun_config_absent env false hcfg]
    exact ⟨rfl, rfl⟩
  | malformed =>
    rw [mainRun_config_malformed env true hcfg, mainRun_config_malformed env false hcfg]
    exact ⟨rfl, rfl⟩
  | parsed c =>
    by_cases hm : env.tfvarsFile = FileRead.malformed
    · by_cases hex : resource_exists_in_state cw_tf_address
        (get_state_resources env.stateList) = true
      · exact mainRun_mode_pairs_nonabort env c hcfg (Or.inr hex)
      · have hex' : resource_exists_in_state cw_tf_address
            (get_state_resources env.stateList) = false := by
          cases hb : resource_exists_in_state cw_tf_address (get_state_resources env.stateList)
          · rfl
          · exact absurd hb hex
        have et := cw_malformed_eq env (get_state_resources env.stateList) true hm hex'
        have ef := cw_malformed_eq env (get_state_resources env.stateList) false hm hex'
        rw [mainRun_parsed_abort env true c "json.load raised" hcfg (by rw [et]),
          mainRun_parsed_abort env false c "json.load raised" hcfg (by rw [ef]), et, ef]
        have hpt := pre_pairs ((get_state_resources env.stateList).card == 0 && !true)
        have hpf := pre_pairs ((get_state_resources env.stateList).card == 0 && !false)
        constructor
        · simp only [wouldPairs_append, importPairs_append]
          rw [hpt.2, hpf.1, wouldPairs_nil, importPairs_nil]
        · simp only [importPairs_append]
          rw [hpt.1, importPairs_nil]
          simp
    · exact mainRun_mode_pairs_nonabort env c hcfg (Or.inl hm)

theorem mainRun_stateList_count_completed (env : Env) (dry : Bool) (c : ConfigModel)
    (hc : env.configFile = FileRead.parsed c)
    (h : env.tfvarsFile ≠ FileRead.malformed ∨
         resource_exists_in_state cw_tf_address (get_state_resources env.stateList) = true) :
    (mainRun env dry).events.count Event.tfStateList = 1 := by
  obtain ⟨o1, h1⟩ := cw_ok env (get_state_resources env.stateList) dry h
  obtain ⟨o2, h2⟩ := mgmt_ok env (get_state_resources env.stateList) dry
  obtain ⟨o3, h3⟩ := org_ok env (get_state_resources env.stateList) dry
  obtain ⟨o4, h4⟩ := audit_ok env (get_state_resources env.stateList)
    (c.primary_region.getD "us-east-1") dry
  rw [mainRun_parsed_eq env dry c o1 o2 o3 o4 hc h1 h2 h3 h4]
  simp only [List.count_append]
  rw [List.count_eq_zero.mpr (cw_no_stateList env (get_state_resources env.stateList) dry),
    List.count_eq_zero.mpr (mgmt_no_stateList env (get_state_resources env.stateList) dry),
    List.count_eq_zero.mpr (org_no_stateList env (get_state_resources env.stateList) dry),
    List.count_eq_zero.mpr (audit_no_stateList env (get_state_resources env.stateList)
      (c.primary_region.getD "us-east-1") dry),
    pre_count ((get_state_resources env.stateList).card == 0 && !dry)]

theorem mainRun_stateList_count (env : Env) (dry : Bool) (c : ConfigModel)
    (hc : env.configFile = FileRead.parsed c) :
    (mainRun env dry).events.count Event.tfStateList = 1 := by
  by_cases hm : env.tfvarsFile = FileRead.malformed
  · by_cases hex : resource_exists_in_state cw_tf_address
      (get_state_resources env.stateList) = true
    · exact mainRun_stateList_count_completed env dry c hc (Or.inr hex)
    · have hex' : resource_exists_in_state cw_tf_address
          (get_state_resources env.stateList) = false := by
        cases hb : resource_exists_in_state cw_tf_address (get_state_resources env.stateList)
        · rfl
        · exact absurd hb hex
      have et := cw_malformed_eq env (get_state_resources env.stateList) dry hm hex'
      rw [mainRun_parsed_abort env dry c "json.load raised" hc (by rw [et]), et]
      simp only [List.count_append]
      rw [pre_count ((get_state_resources env.stateList).card == 0 && !dry)]
      rfl
  · exact mainRun_stateList_count_completed env dry c hc (Or.inl hm)

theorem pre_mem (b : Bool) (e : Event)
    (h : e ∈ Event.tfStateList :: (if b = true then [Event.tfPlanRefresh] else [])) :
    e = Event.tfStateList ∨ e = Event.tfPlanRefresh := by
  cases b
  · simp at h; exact Or.inl h
  · simp at h; exact h

/-- Characterization of every `terraform import` call `mainRun` can make:
the address is one of the four fixed terraform addresses and the identifier
is a function of the tfvars configuration file alone (a constant `"macie"`,
the configured log group name, or the configured audit account id) — never
of any probe response. -/
theorem mainRun_import_chars (env : Env) (dry : Bool) (a i : String)
    (h : Event.tfImport a i ∈ (mainRun env dry).events) :
    (a = cw_tf_address ∧ ∃ t, env.tfvarsFile = FileRead.parsed t ∧ i = log_group_name t) ∨
    (a = mgmt_tf_address ∧ i = "macie") ∨
    (a = org_admin_tf_address ∧ i = (get_account_ids_from_tfvars env.tfvarsFile).audit) ∨
    (a = audit_tf_address ∧ i = "macie") := by
  cases hcfg : env.configFile with
  | absent => rw [mainRun_config_absent env dry hcfg] at h; simp at h
  | malformed => rw [mainRun_config_malformed env dry hcfg] at h; simp at h
  | parsed c =>
    have hcw : ∀ he : Event.tfImport a i ∈
        (sync_cloudwatch_log_group env (get_state_resources env.stateList) dry).events,
        (a = cw_tf_address ∧ ∃ t, env.tfvarsFile = FileRead.parsed t ∧ i = log_group_name t) := by
      intro he
      obtain ⟨t, htf, h2⟩ := cw_events_shape env (get_state_resources env.stateList) dry _ he
      rcases h2 with h2 | h2
      · obtain ⟨ha, hi⟩ := Event.tfImport.inj h2
        exact ⟨ha, t, htf, hi⟩
      · exact Event.noConfusion h2
    have hpre : ∀ he : Event.tfImport a i ∈ (Event.tfStateList ::
        (if ((get_state_resources env.stateList).card == 0 && !dry) = true
          then [Event.tfPlanRefresh] else [])), False := by
      intro he
      rcases pre_mem _ _ he with h2 | h2 <;> exact Event.noConfusion h2
    by_cases hm : env.tfvarsFile = FileRead.malformed
    · by_cases hex : resource_exists_in_state cw_tf_address
        (get_state_resources env.stateList) = true
      · obtain ⟨o1, h1⟩ := cw_ok env (get_state_resources env.stateList) dry (Or.inr hex)
        obtain ⟨o2, h2⟩ := mgmt_ok env (get_state_resources env.stateList) dry
        obtain ⟨o3, h3⟩ := org_ok env (get_state_resources env.stateList) dry
        obtain ⟨o4, h4⟩ := audit_ok env (get_state_resources env.stateList)
          (c.primary_region.getD "us-east-1") dry
        rw [mainRun_parsed_eq env dry c o1 o2 o3 o4 hcfg h1 h2 h3 h4] at h
        simp only [List.mem_append] at h
        rcases h with ((((h | h) | h) | h) | h)
        · exact absurd h hpre
        · exact Or.inl (hcw h)
        · rcases mgmt_events_shape env (get_state_resources env.stateList) dry _ h
            with h2 | h2 | h2
          · exact Event.noConfusion h2
          · obtain ⟨ha, hi⟩ := Event.tfImport.inj h2
            exact Or.inr (Or.inl ⟨ha, hi⟩)
          · exact Event.noConfusion h2
        · rcases org_events_shape env (get_state_resources env.stateList) dry _ h
            with h2 | h2 | h2
          · exact Event.noConfusion h2
          · obtain ⟨ha, hi⟩ := Event.tfImport.inj h2
            exact Or.inr (Or.inr (Or.inl ⟨ha, hi⟩))
          · exact Event.noConfusion h2
        · rcases audit_events_shape env (get_state_resources env.stateList)
            (c.primary_region.getD "us-east-1") dry _ h with h2 | h2 | h2 | h2
          · exact Event.noConfusion h2
          · exact Event.noConfusion h2
          · obtain ⟨ha, hi⟩ := Event.tfImport.inj h2
            exact Or.inr (Or.inr (Or.inr ⟨ha, hi⟩))
          · exact Event.noConfusion h2
      · have hex' : resource_exists_in_state cw_tf_address
            (get_state_resources env.stateList) = false := by
          cases hb : resource_exists_in_state cw_tf_address (get_state_resources env.stateList)
          · rfl
          · exact absurd hb hex
        have et := cw_malformed_eq env (get_state_resources env.stateList) dry hm hex'
        rw [mainRun_parsed_abort env dry c "json.load raised" hcfg (by rw [et]), et] at h
        simp only [List.mem_append] at h
        rcases h with h | h
        · exact absurd h hpre
        · simp at h
    · obtain ⟨o1, h1⟩ := cw_ok env (get_state_resources env.stateList) dry (Or.inl hm)
      obtain ⟨o2, h2⟩ := mgmt_ok env (get_state_resources env.stateList) dry
      obtain ⟨o3, h3⟩ := org_ok env (get_state_resources env.stateList) dry
      obtain ⟨o4, h4⟩ := audit_ok env (get_state_resources env.stateList)
        (c.primary_region.getD "us-east-1") dry
      rw [mainRun_parsed_eq env dry c o1 o2 o3 o4 hcfg h1 h2 h3 h4] at h
      simp only [List.mem_append] at h
      rcases h with ((((h | h) | h) | h) | h)
      · exact absurd h hpre
      · exact Or.inl (hcw h)
      · rcases mgmt_events_shape env (get_state_resources env.stateList) dry _ h
          with h2 | h2 | h2
        · exact Event.noConfusion h2
        · obtain ⟨ha, hi⟩ := Event.tfImport.inj h2
          exact Or.inr (Or.inl ⟨ha, hi⟩)
        · exact Event.noConfusion h2
      · rcases org_events_shape env (get_state_resources env.stateList) dry _ h
          with h2 | h2 | h2
        · exact Event.noConfusion h2
        · obtain ⟨ha, hi⟩ := Event.tfImport.inj h2
          exact Or.inr (Or.inr (Or.inl ⟨ha, hi⟩))
        · exact Event.noConfusion h2
      · rcases audit_events_shape env (get_state_resources env.stateList)
          (c.primary_region.getD "us-east-1") dry _ h with h2 | h2 | h2 | h2
        · exact Event.noConfusion h2
        · exact Event.noConfusion h2
        · obtain ⟨ha, hi⟩ := Event.tfImport.inj h2
          exact Or.inr (Or.inr (Or.inr ⟨ha, hi⟩))
        · exact Event.noConfusion h2

/-- One unfolding of the retry loop. -/
theorem importAttemptLoop_step (res : Nat → TfOutcome) (a i : String) (att rem : Nat) :
    importAttemptLoop res a i att (rem + 1) =
      (let r := run_terraform_cmd (res att)
      if r.1 then ⟨true, [Event.tfImport a i], []⟩
      else if containsSub r.2 "Resource already managed" then ⟨true, [Event.tfImport a i], []⟩
      else if 0 < rem then
        let rest := importAttemptLoop res a i (att + 1) rem
        ⟨rest.result, Event.tfImport a i :: rest.events, IMPORT_RETRY_DELAY :: rest.delays⟩
      else ⟨false, [Event.tfImport a i], []⟩ : ImportRun) := rfl

/-! Lemmas over the extended oracle. -/

theorem cwX_ok (env : EnvX) (sr : Finset String) (dry : Bool)
    (h : env.tfvarsFile ≠ FileRead.malformed ∨
         resource_exists_in_state cw_tf_address sr = true) :
    ∃ o, (sync_cloudwatch_log_group_x env sr dry).outcome = Except.ok o := by
  unfold sync_cloudwatch_log_group_x
  split_ifs with hex
  · exact ⟨_, rfl⟩
  · rcases h with h | h
    · cases htf : env.tfvarsFile with
      | absent => exact ⟨_, rfl⟩
      | malformed => exact absurd htf h
      | parsed t =>
        by_cases hfld : (t.resource_pfx == "" || t.deployment_name == "") = true
        · simp only [if_pos hfld]; exact ⟨_, rfl⟩
        · simp only [if_neg hfld]; exact ⟨_, rfl⟩
    · exact absurd h hex

theorem mgmtX_ok (env : EnvX) (sr : Finset String) (dry : Bool)
    (hb : env.mgmtMacie.isBotoError = false) :
    ∃ o, (sync_macie_management_account_x env sr dry).outcome = Except.ok o := by
  unfold sync_macie_management_account_x
  split_ifs with hex
  · exact ⟨_, rfl⟩
  · cases hm : env.mgmtMacie with
    | ok status =>
      by_cases hs : (status == "ENABLED") = true
      · simp only [if_pos hs]; exact ⟨_, rfl⟩
      · simp only [if_neg hs]; exact ⟨_, rfl⟩
    | clientError msg =>
      by_cases hc : containsSub msg "Macie is not enabled" = true
      · simp only [if_pos hc]; exact ⟨_, rfl⟩
      · simp only [if_neg hc]; exact ⟨_, rfl⟩
    | botoError msg =>
      rw [hm] at hb
      simp [MacieRespX.isBotoError] at hb

theorem orgX_ok (env : EnvX) (sr : Finset String) (dry : Bool)
    (hb : env.orgAdmins.isBotoError = false) :
    ∃ o, (sync_macie_org_admin_x env sr dry).outcome = Except.ok o := by
  unfold sync_macie_org_admin_x
  split_ifs with h1 h2
  · exact ⟨_, rfl⟩
  · exact ⟨_, rfl⟩
  · cases ho : env.orgAdmins with
    | ok admin_ids =>
      by_cases hc : admin_ids.contains (get_account_ids_from_tfvars env.tfvarsFile).audit = true
      · simp only [if_pos hc]; exact ⟨_, rfl⟩
      · simp only [if_neg hc]; exact ⟨_, rfl⟩
    | clientError msg => exact ⟨_, rfl⟩
    | botoError msg =>
      rw [ho] at hb
      simp [OrgRespX.isBotoError] at hb

theorem auditX_ok (env : EnvX) (sr : Finset String) (region : String) (dry : Bool)
    (hbs : env.stsResp.isBotoError = false)
    (hba : env.auditMacie.isBotoError = false) :
    ∃ o, (sync_macie_audit_account_x env sr region dry).outcome = Except.ok o := by
  unfold sync_macie_audit_account_x
  split_ifs with h1 h2
  · exact ⟨_, rfl⟩
  · exact ⟨_, rfl⟩
  · cases hsts : env.stsResp with
    | botoError msg =>
      rw [hsts] at hbs
      simp [StsRespX.isBotoError] at hbs
    | clientError msg => exact ⟨_, rfl⟩
    | ok =>
      cases ha : env.auditMacie with
      | ok status =>
        by_cases hs : (status == "ENABLED") = true
        · simp only [if_pos hs]; exact ⟨_, rfl⟩
        · simp only [if_neg hs]; exact ⟨_, rfl⟩
      | clientError msg =>
        by_cases hc : containsSub msg "Macie is not enabled" = true
        · simp only [if_pos hc]; exact ⟨_, rfl⟩
        · simp only [if_neg hc]; exact ⟨_, rfl⟩
      | botoError msg =>
        rw [ha] at hba
        simp [MacieRespX.isBotoError] at hba

theorem mainRunX_parsed_eq (env : EnvX) (dry : Bool) (c : ConfigModel)
    (o1 o2 o3 o4 : Outcome)
    (hc : env.configFile = FileRead.parsed c)
    (h1 : (sync_cloudwatch_log_group_x env (get_state_resources env.stateList) dry).outcome
          = Except.ok o1)
    (h2 : (sync_macie_management_account_x env (get_state_resources env.stateList) dry).outcome
          = Except.ok o2)
    (h3 : (sync_macie_org_admin_x env (get_state_resources env.stateList) dry).outcome
          = Except.ok o3)
    (h4 : (sync_macie_audit_account_x env (get_state_resources env.stateList)
            (c.primary_region.getD "us-east-1") dry).outcome = Except.ok o4) :
    mainRunX env dry =
      ⟨(Event.tfStateList ::
          (if (get_state_resources env.stateList).card == 0 && !dry
            then [Event.tfPlanRefresh] else []))
        ++ (sync_cloudwatch_log_group_x env (get_state_resources env.stateList) dry).events
        ++ (sync_macie_management_account_x env (get_state_resources env.stateList) dry).events
        ++ (sync_macie_org_admin_x env (get_state_resources env.stateList) dry).events
        ++ (sync_macie_audit_account_x env (get_state_resources env.stateList)
            (c.primary_region.getD "us-east-1") dry).events,
        [o1, o2, o3, o4], Except.ok 0⟩ := by
  unfold mainRunX
  rw [hc]
  simp only [h1, h2, h3, h4]

/-- Over the extended oracle: excluding exactly the uncaught-exception
classes (malformed tfvars; non-ClientError raises from the probe and
broker calls), every run with a parsed config processes all four resource
kinds and exits 0 — whatever caught failures (broker ClientError, probe
ClientError, import failure, absent tfvars) occur. -/
theorem mainRunX_completes (env : EnvX) (dry : Bool) (c : ConfigModel)
    (hc : env.configFile = FileRead.parsed c)
    (htf : env.tfvarsFile ≠ FileRead.malformed)
    (hbm : env.mgmtMacie.isBotoError = false)
    (hbo : env.orgAdmins.isBotoError = false)
    (hbs : env.stsResp.isBotoError = false)
    (hba : env.auditMacie.isBotoError = false) :
    (mainRunX env dry).exit = Except.ok 0 ∧ (mainRunX env dry).outcomes.length = 4 := by
  obtain ⟨o1, h1⟩ := cwX_ok env (get_state_resources env.stateList) dry (Or.inl htf)
  obtain ⟨o2, h2⟩ := mgmtX_ok env (get_state_resources env.stateList) dry hbm
  obtain ⟨o3, h3⟩ := orgX_ok env (get_state_resources env.stateList) dry hbo
  obtain ⟨o4, h4⟩ := auditX_ok env (get_state_resources env.stateList)
    (c.primary_region.getD "us-east-1") dry hbs hba
  rw [mainRunX_parsed_eq env dry c o1 o2 o3 o4 hc h1 h2 h3 h4]
  exact ⟨rfl, rfl⟩

/-- Over the extended oracle, a normal return of `main` is always exit
code 0: no branch of the driver returns any other value. -/
theorem mainRunX_exit_ok (env : EnvX) (dry : Bool) (n : Int)
    (h : (mainRunX env dry).exit = Except.ok n) : n = 0 := by
  unfold mainRunX at h
  rcases hcfg : env.configFile with _ | _ | c <;> rw [hcfg] at h
  · simp at h
  · simp at h
  · rcases h1 : (sync_cloudwatch_log_group_x env (get_state_resources env.stateList) dry).outcome
      with e1 | o1 <;> simp only [h1] at h
    · simp at h
    · rcases h2 : (sync_macie_management_account_x env
          (get_state_resources env.stateList) dry).outcome with e2 | o2 <;> simp only [h2] at h
      · simp at h
      · rcases h3 : (sync_macie_org_admin_x env
            (get_state_resources env.stateList) dry).outcome with e3 | o3 <;> simp only [h3] at h
        · simp at h
        · rcases h4 : (sync_macie_audit_account_x env (get_state_resources env.stateList)
              (c.primary_region.getD "us-east-1") dry).outcome with e4 | o4 <;>
            simp only [h4] at h
          · simp at h
          · simp at h
            omega

/-- A missing or unparsable config file aborts before any probing, with a
nonzero process exit (an uncaught exception). -/
theorem mainRunX_config_failure (env : EnvX) (dry : Bool)
    (h : isParsed env.configFile = false) :
    ∃ e, (mainRunX env dry).exit = Except.error e := by
  rcases hcfg : env.configFile with _ | _ | c
  · exact ⟨"FileNotFoundError", by unfold mainRunX; rw [hcfg]⟩
  · exact ⟨"config parse raised", by unfold mainRunX; rw [hcfg]⟩
  · rw [hcfg] at h
    simp [isParsed] at h

/-! The base model is the restriction of the extended one: along `Env.toX`
every sync step and the whole driver agree, so the base-oracle theorems
are statements about extended runs without uncaught raises. -/

theorem cw_toX_agrees (env : Env) (sr : Finset String) (dry : Bool) :
    sync_cloudwatch_log_group_x env.toX sr dry = sync_cloudwatch_log_group env sr dry := rfl

theorem mgmt_toX_agrees (env : Env) (sr : Finset String) (dry : Bool) :
    sync_macie_management_account_x env.toX sr dry
      = sync_macie_management_account env sr dry := by
  unfold sync_macie_management_account_x sync_macie_management_account
  cases hm : env.mgmtMacie <;> simp only [Env.toX, hm]
  all_goals try rfl

theorem org_toX_agrees (env : Env) (sr : Finset String) (dry : Bool) :
    sync_macie_org_admin_x env.toX sr dry = sync_macie_org_admin env sr dry := by
  unfold sync_macie_org_admin_x sync_macie_org_admin
  cases ho : env.orgAdmins <;> simp only [Env.toX, ho]
  all_goals try rfl

theorem audit_toX_agrees (env : Env) (sr : Finset String) (region : String) (dry : Bool) :
    sync_macie_audit_account_x env.toX sr region dry
      = sync_macie_audit_account env sr region dry := by
  unfold sync_macie_audit_account_x sync_macie_audit_account
  cases hr : env.assumeRoleOk <;> cases ha : env.auditMacie <;>
    (simp only [Env.toX, hr, ha]; rfl)

theorem mainRun_toX_agrees (env : Env) (dry : Bool) :
    mainRunX env.toX dry = mainRun env dry := by
  have htox : env.toX.configFile = env.configFile := rfl
  have hst : env.toX.stateList = env.stateList := rfl
  unfold mainRunX mainRun
  rw [htox]
  rcases hcfg : env.configFile with _ | _ | c
  · rfl
  · rfl
  · rw [hst]
    simp only [cw_toX_agrees, mgmt_toX_agrees, org_toX_agrees, audit_toX_agrees]
    try rfl

/-! ## Claims -/

/-- C1 (counterexample): the claim says the run's exit status is nonzero
whenever an import ends ImportFailed.  In `envC1` the log-group import
fails on both attempts — the run's first outcome is `importFailed` — yet
`main` still returns exit code 0: `main` unconditionally ends with
`return 0` and never inspects import outcomes. -/
theorem C1_exit_counterexample :
    (mainRun envC1 false).outcomes =
      [Outcome.importFailed, Outcome.skipped "Macie not enabled in management account",
       Outcome.skipped "No audit account ID found",
       Outcome.skipped "No audit account ID found"] ∧
    (mainRun envC1 false).exit = Except.ok 0 := ⟨rfl, rfl⟩

/-- C1 (amended): the exit status never reflects import outcomes: whenever
`main` returns normally the exit code is 0 — even when resource kinds
ended ImportFailed, as the counterexample shows — and a nonzero process
exit arises only from an uncaught exception; in particular the hard
missing-configuration precondition (absent or unparsable config file)
does abort with a nonzero exit.  Stated over the extended oracle, which
also represents uncaught non-ClientError boto raises. -/
theorem C1_exit_amended :
    (∀ (env : EnvX) (dry : Bool) (n : Int),
      (mainRunX env dry).exit = Except.ok n → n = 0) ∧
    (∀ (env : EnvX) (dry : Bool), isParsed env.configFile = false →
      ∃ e, (mainRunX env dry).exit = Except.error e) :=
  ⟨fun env dry n h => mainRunX_exit_ok env dry n h,
   fun env dry h => mainRunX_config_failure env dry h⟩

/-- C1 (witness): the amended statement applied at concrete runs: `envXok`
returns normally — so its exit code is forced to 0 — and `envXnoConfig`
lacks the config file, so its exit is an uncaught error. -/
theorem C1_exit_amended_witness :
    (0 : Int) = 0 ∧ ∃ e, (mainRunX envXnoConfig false).exit = Except.error e :=
  ⟨C1_exit_amended.1 envXok false 0 rfl, C1_exit_amended.2 envXnoConfig false rfl⟩

/-- C2: dry-run mode performs zero state-store import calls (the trace of
`import_resource` in dry-run is a single would-import report), returns
success, and — over any environment — the set of (address, identifier)
pairs reported "would import" by a dry run equals the set of pairs a
non-dry run over the same TrackedSet and probe responses actually passes
to `terraform import`. -/
theorem C2_dry_run_frame :
    (∀ (env : Env) (a i : String),
      importResource env a i true = ⟨true, [Event.wouldImport a i], []⟩) ∧
    (∀ env : Env,
      wouldPairs (mainRun env true).events = importPairs (mainRun env false).events ∧
      importPairs (mainRun env true).events = ∅) :=
  ⟨fun env a i => importResource_dry env a i, fun env => mainRun_mode_pairs env⟩

/-- C3: an import attempt that fails with an output containing "Resource
already managed" makes `import_resource` return success immediately (just one
call, no further attempts, no sleeps), whether it is the first or
the second attempt; the outcome is classified imported, not failed. -/
theorem C3_already_managed : ∀ (env : Env) (a i : String),
    ((run_terraform_cmd (env.importResults a i 1)).1 = false →
      containsSub (run_terraform_cmd (env.importResults a i 1)).2
        "Resource already managed" = true →
      importResource env a i false = ⟨true, [Event.tfImport a i], []⟩ ∧
      importOutcome (importResource env a i false) = Outcome.importedOk) ∧
    ((run_terraform_cmd (env.importResults a i 1)).1 = false →
      containsSub (run_terraform_cmd (env.importResults a i 1)).2
        "Resource already managed" = false →
      (run_terraform_cmd (env.importResults a i 2)).1 = false →
      containsSub (run_terraform_cmd (env.importResults a i 2)).2
        "Resource already managed" = true →
      importResource env a i false
        = ⟨true, [Event.tfImport a i, Event.tfImport a i], [IMPORT_RETRY_DELAY]⟩ ∧
      importOutcome (importResource env a i false) = Outcome.importedOk) := by
  intro env a i
  constructor
  · intro h1s h1m
    have heq : importResource env a i false = ⟨true, [Event.tfImport a i], []⟩ := by
      rw [importResource_false_def]
      show importAttemptLoop (env.importResults a i) a i 1 (1 + 1) = _
      rw [importAttemptLoop_step]
      simp only [h1s, Bool.false_eq_true, if_false, h1m, if_true]
    exact ⟨heq, by rw [heq]; rfl⟩
  · intro h1s h1m h2s h2m
    have heq : importResource env a i false
        = ⟨true, [Event.tfImport a i, Event.tfImport a i], [IMPORT_RETRY_DELAY]⟩ := by
      rw [importResource_false_def]
      show importAttemptLoop (env.importResults a i) a i 1 (1 + 1) = _
      rw [importAttemptLoop_step]
      simp only [h1s, h1m, Bool.false_eq_true, if_false, Nat.lt_irrefl, decide_True,
        Nat.zero_lt_one, if_true]
      rw [show (1 : Nat) = 0 + 1 from rfl, importAttemptLoop_step]
      simp only [h2s, h2m, Bool.false_eq_true, if_false, if_true]
    exact ⟨heq, by rw [heq]; rfl⟩

/-- C3 (witness): the first attempt in `envC3` fails with an
already-managed message, and `import_resource` returns success with a
single import call. -/
theorem C3_already_managed_witness :
    importResource envC3 "module.macie_org[0].aws_macie2_account.management" "macie" false
      = ⟨true, [Event.tfImport "module.macie_org[0].aws_macie2_account.management" "macie"], []⟩ ∧
    importOutcome (importResource envC3
      "module.macie_org[0].aws_macie2_account.management" "macie" false) = Outcome.importedOk :=
  (C3_already_managed envC3 "module.macie_org[0].aws_macie2_account.management" "macie").1
    (by decide) (by decide)

/-- C4: when an import keeps failing with a non-already-managed error, the
terraform import command is invoked exactly `IMPORT_RETRIES = 2` times with a
`IMPORT_RETRY_DELAY = 5` second sleep between the attempts (none after the
last), `import_resource` reports failure, and the run still processes all
four resource kinds and exits normally. -/
theorem C4_retry_budget :
    (∀ (env : Env) (a i : String),
      (run_terraform_cmd (env.importResults a i 1)).1 = false →
      containsSub (run_terraform_cmd (env.importResults a i 1)).2
        "Resource already managed" = false →
      (run_terraform_cmd (env.importResults a i 2)).1 = false →
      containsSub (run_terraform_cmd (env.importResults a i 2)).2
        "Resource already managed" = false →
      importResource env a i false
        = ⟨false, [Event.tfImport a i, Event.tfImport a i], [IMPORT_RETRY_DELAY]⟩ ∧
      importOutcome (importResource env a i false) = Outcome.importFailed) ∧
    IMPORT_RETRIES = 2 ∧ IMPORT_RETRY_DELAY = 5 ∧
    (∀ (env : Env) (dry : Bool) (c : ConfigModel),
      env.configFile = FileRead.parsed c → env.tfvarsFile ≠ FileRead.malformed →
      (mainRun env dry).exit = Except.ok 0 ∧ (mainRun env dry).outcomes.length = 4) := by
  refine ⟨?_, rfl, rfl, fun env dry c hc htf => mainRun_completes env dry c hc (Or.inl htf)⟩
  intro env a i h1s h1m h2s h2m
  have heq : importResource env a i false
      = ⟨false, [Event.tfImport a i, Event.tfImport a i], [IMPORT_RETRY_DELAY]⟩ := by
    rw [importResource_false_def]
    show importAttemptLoop (env.importResults a i) a i 1 (1 + 1) = _
    rw [importAttemptLoop_step]
    simp only [h1s, h1m, Bool.false_eq_true, if_false, Nat.lt_irrefl, decide_True,
      Nat.zero_lt_one, if_true]
    rw [show (1 : Nat) = 0 + 1 from rfl, importAttemptLoop_step]
    simp only [h2s, h2m, Bool.false_eq_true, if_false, Nat.lt_irrefl, decide_False]
  exact ⟨heq, by rw [heq]; rfl⟩

/-- C4 (witness): in `envC1` every import attempt fails with a transient
error; the log-group import is attempted exactly twice with one 5-second
sleep, reports failure, and the run still completes all four kinds with
exit code 0. -/
theorem C4_retry_budget_witness :
    (importResource envC1 cw_tf_address "/acme/deployments/dev" false
      = ⟨false, [Event.tfImport cw_tf_address "/acme/deployments/dev",
          Event.tfImport cw_tf_address "/acme/deployments/dev"], [IMPORT_RETRY_DELAY]⟩ ∧
     importOutcome (importResource envC1 cw_tf_address "/acme/deployments/dev" false)
      = Outcome.importFailed) ∧
    ((mainRun envC1 false).exit = Except.ok 0 ∧ (mainRun envC1 false).outcomes.length = 4) :=
  ⟨C4_retry_budget.1 envC1 cw_tf_address "/acme/deployments/dev"
      (by decide) (by decide) (by decide) (by decide),
   C4_retry_budget.2.2.2 envC1 false ⟨some "us-east-1"⟩ rfl (by decide)⟩

/-- C5 (counterexample): the claim says every resource kind whose address
is in the TrackedSet reports AlreadyTracked.  But the delegated-admin step
checks the audit account id before the state check: with no tfvars file and
the delegated-admin address tracked, it reports the missing-audit skip, not
AlreadyTracked (it still performs zero calls). -/
theorem C5_tracked_counterexample :
    org_admin_tf_address ∈ ({org_admin_tf_address} : Finset String) ∧
    sync_macie_org_admin envC5 {org_admin_tf_address} false
      = ⟨Except.ok (Outcome.skipped "No audit account ID found"), []⟩ ∧
    (sync_macie_org_admin envC5 {org_admin_tf_address} false).outcome
      ≠ Except.ok Outcome.alreadyInState := by
  refine ⟨Finset.mem_singleton_self _, by decide, by decide⟩

/-- C5 (amended): if a kind's address is in the TrackedSet snapshot, its
sync step performs zero external calls (in particular the import operation
is never invoked); it reports AlreadyTracked outright for the log-group and
management kinds, and for the delegated-admin and audit kinds as well
provided their audit-account dependency is configured (otherwise they
report the dependency skip — still with zero calls). -/
theorem C5_tracked_amended : ∀ (env : Env) (sr : Finset String) (dry : Bool),
    (cw_tf_address ∈ sr →
      sync_cloudwatch_log_group env sr dry = ⟨Except.ok Outcome.alreadyInState, []⟩) ∧
    (mgmt_tf_address ∈ sr →
      sync_macie_management_account env sr dry = ⟨Except.ok Outcome.alreadyInState, []⟩) ∧
    (org_admin_tf_address ∈ sr → (sync_macie_org_admin env sr dry).events = [] ∧
      ((get_account_ids_from_tfvars env.tfvarsFile).audit ≠ "" →
        sync_macie_org_admin env sr dry = ⟨Except.ok Outcome.alreadyInState, []⟩)) ∧
    (∀ region, audit_tf_address ∈ sr →
      (sync_macie_audit_account env sr region dry).events = [] ∧
      ((get_account_ids_from_tfvars env.tfvarsFile).audit ≠ "" →
        sync_macie_audit_account env sr region dry = ⟨Except.ok Outcome.alreadyInState, []⟩)) := by
  intro env sr dry
  refine ⟨?_, ?_, ?_, ?_⟩
  · intro hmem
    have hex : resource_exists_in_state cw_tf_address sr = true := by
      simpa [resource_exists_in_state] using hmem
    unfold sync_cloudwatch_log_group
    rw [hex]
    rfl
  · intro hmem
    have hex : resource_exists_in_state mgmt_tf_address sr = true := by
      simpa [resource_exists_in_state] using hmem
    unfold sync_macie_management_account
    rw [hex]
    rfl
  · intro hmem
    have hex : resource_exists_in_state org_admin_tf_address sr = true := by
      simpa [resource_exists_in_state] using hmem
    by_cases haud : ((get_account_ids_from_tfvars env.tfvarsFile).audit == "") = true
    · constructor
      · unfold sync_macie_org_admin
        rw [haud]
        rfl
      · intro hne
        exact absurd (by simpa using haud) hne
    · have heq : sync_macie_org_admin env sr dry = ⟨Except.ok Outcome.alreadyInState, []⟩ := by
        unfold sync_macie_org_admin
        rw [if_neg haud, hex]
        rfl
      exact ⟨by rw [heq], fun _ => heq⟩
  · intro region hmem
    have hex : resource_exists_in_state audit_tf_address sr = true := by
      simpa [resource_exists_in_state] using hmem
    by_cases haud : ((get_account_ids_from_tfvars env.tfvarsFile).audit == "") = true
    · constructor
      · unfold sync_macie_audit_account
        rw [haud]
        rfl
      · intro hne
        exact absurd (by simpa using haud) hne
    · have heq : sync_macie_audit_account env sr region dry
          = ⟨Except.ok Outcome.alreadyInState, []⟩ := by
        unfold sync_macie_audit_account
        rw [if_neg haud, hex]
        rfl
      exact ⟨by rw [heq], fun _ => heq⟩

/-- C5 (witness): a tracked log-group address yields AlreadyTracked with
zero calls. -/
theorem C5_tracked_amended_witness :
    sync_cloudwatch_log_group envC1 {cw_tf_address} false
      = ⟨Except.ok Outcome.alreadyInState, []⟩ :=
  (C5_tracked_amended envC1 {cw_tf_address} false).1 (Finset.mem_singleton_self _)

/-- C6 (counterexample): the claim says every per-kind failure is
contained to its resource kind.  Two refutations: a tfvars file that fails
`json.load` makes the log-group step raise and aborts the run before any
kind completes; and a broker whose `assume_role` raises a non-ClientError
exception (endpoint unreachable) — caught nowhere in the source — aborts
the run from the audit-account step. -/
theorem C6_containment_counterexample :
    ((mainRun envC6 false).exit = Except.error "json.load raised" ∧
      (mainRun envC6 false).outcomes = []) ∧
    ((mainRunX envXboto false).exit = Except.error "EndpointConnectionError" ∧
      (mainRunX envXboto false).outcomes =
        [Outcome.importFailed, Outcome.skipped "Macie not enabled in management account",
         Outcome.skipped "Delegated admin not configured"]) :=
  ⟨⟨rfl, rfl⟩, ⟨rfl, rfl⟩⟩

/-- C6 (amended): exactly the failure classes the code catches are
contained — broker `ClientError`, probe `ClientError`, import failure,
absent tfvars: every run of the extended oracle whose config parses, whose
tfvars file is not malformed and in which no boto call raises a
non-ClientError exception processes all four resource kinds and exits 0.
Not contained are the uncaught exceptions: a malformed tfvars in the
log-group step and non-ClientError raises from probe or broker calls, each
of which aborts the whole run (see the counterexample). -/
theorem C6_containment_amended : ∀ (env : EnvX) (dry : Bool) (c : ConfigModel),
    env.configFile = FileRead.parsed c →
    env.tfvarsFile ≠ FileRead.malformed →
    env.mgmtMacie.isBotoError = false →
    env.orgAdmins.isBotoError = false →
    env.stsResp.isBotoError = false →
    env.auditMacie.isBotoError = false →
    (mainRunX env dry).exit = Except.ok 0 ∧ (mainRunX env dry).outcomes.length = 4 :=
  fun env dry c hc htf hbm hbo hbs hba =>
    mainRunX_completes env dry c hc htf hbm hbo hbs hba

/-- C6 (witness): `envXok` exhibits a broker ClientError, a probe
ClientError and an import failure — none an uncaught raise; all four kinds
are processed and the run exits 0. -/
theorem C6_containment_amended_witness :
    (mainRunX envXok false).exit = Except.ok 0 ∧
    (mainRunX envXok false).outcomes.length = 4 :=
  C6_containment_amended envXok false ⟨some "us-east-1"⟩ rfl (by decide) rfl rfl rfl rfl

/-- C7 (counterexample): the claim says the identifier passed to the import
operation is derived from the live probe of the cloud service.  The two
environments below have identical probe oracles — and the log-group step
performs no cloud-service probe at all (its only event is the import call)
— yet the identifiers passed to `terraform import` differ, because they
come from the configuration file, not from any probe response. -/
theorem C7_identifier_counterexample :
    (sync_cloudwatch_log_group envC7a ∅ false).events
      = [Event.tfImport cw_tf_address "/acme/deployments/bluesky"] ∧
    (sync_cloudwatch_log_group envC7b ∅ false).events
      = [Event.tfImport cw_tf_address "/acme/deployments/greenfield"] ∧
    envC7a.mgmtMacie = envC7b.mgmtMacie ∧
    envC7a.orgAdmins = envC7b.orgAdmins ∧
    envC7a.auditMacie = envC7b.auditMacie ∧
    envC7a.assumeRoleOk = envC7b.assumeRoleOk ∧
    envC7a.importResults = envC7b.importResults ∧
    ("/acme/deployments/bluesky" : String) ≠ "/acme/deployments/greenfield" :=
  ⟨by decide, by decide, rfl, rfl, rfl, rfl, rfl, by decide⟩

/-- C7 (amended): every import call's logical address is one of the four
fixed terraform addresses (stable across runs), and its external identifier
is a function of the tfvars configuration file alone — the constant
`"macie"`, the configured log group name, or the configured audit account
id; the probe responses only gate whether the import is attempted. -/
theorem C7_identifier_amended : ∀ (env : Env) (dry : Bool) (a i : String),
    Event.tfImport a i ∈ (mainRun env dry).events →
    (a = cw_tf_address ∧ ∃ t, env.tfvarsFile = FileRead.parsed t ∧ i = log_group_name t) ∨
    (a = mgmt_tf_address ∧ i = "macie") ∨
    (a = org_admin_tf_address ∧ i = (get_account_ids_from_tfvars env.tfvarsFile).audit) ∨
    (a = audit_tf_address ∧ i = "macie") :=
  fun env dry a i h => mainRun_import_chars env dry a i h

/-- C7 (witness): the amended characterization applied to the concrete
log-group import performed in `envC1`. -/
theorem C7_identifier_amended_witness :
    (cw_tf_address = cw_tf_address ∧
      ∃ t, envC1.tfvarsFile = FileRead.parsed t ∧
        "/acme/deployments/dev" = log_group_name t) ∨
    (cw_tf_address = mgmt_tf_address ∧ ("/acme/deployments/dev" : String) = "macie") ∨
    (cw_tf_address = org_admin_tf_address ∧
      "/acme/deployments/dev" = (get_account_ids_from_tfvars envC1.tfvarsFile).audit) ∨
    (cw_tf_address = audit_tf_address ∧ ("/acme/deployments/dev" : String) = "macie") :=
  C7_identifier_amended envC1 false cw_tf_address "/acme/deployments/dev" (by decide)

/-- C8: when no audit account id is configured (absent, unparsable, or
audit-free tfvars), the delegated-admin and audit-account steps skip with
zero external calls — no broker, cloud-service, or import invocation. -/
theorem C8_not_applicable :
    ∀ (env : Env) (sr : Finset String) (region : String) (dry : Bool),
    (get_account_ids_from_tfvars env.tfvarsFile).audit = "" →
    sync_macie_org_admin env sr dry
      = ⟨Except.ok (Outcome.skipped "No audit account ID found"), []⟩ ∧
    sync_macie_audit_account env sr region dry
      = ⟨Except.ok (Outcome.skipped "No audit account ID found"), []⟩ := by
  intro env sr region dry h
  have hb : ((get_account_ids_from_tfvars env.tfvarsFile).audit == "") = true := by
    simp [h]
  constructor
  · unfold sync_macie_org_admin
    rw [hb]
    rfl
  · unfold sync_macie_audit_account
    rw [hb]
    rfl

/-- C8 (witness): `envC1`'s tfvars has an empty audit account id, and both
audit-scoped steps skip with an empty trace. -/
theorem C8_not_applicable_witness :
    sync_macie_org_admin envC1 ∅ false
      = ⟨Except.ok (Outcome.skipped "No audit account ID found"), []⟩ ∧
    sync_macie_audit_account envC1 ∅ "us-east-1" false
      = ⟨Except.ok (Outcome.skipped "No audit account ID found"), []⟩ :=
  C8_not_applicable envC1 ∅ "us-east-1" false rfl

/-- C9: `get_state_resources` returns the empty set on any failure of the
listing operation (nonzero exit code, timeout, or other exception) instead
of raising, and every run with a parsed config invokes the `terraform
state list` reader exactly once. -/
theorem C9_state_reader :
    (∀ raw, (run_terraform_cmd raw).1 = false → get_state_resources raw = ∅) ∧
    (∀ secs cmdline, get_state_resources (TfOutcome.timedOut secs cmdline) = ∅) ∧
    (∀ msg, get_state_resources (TfOutcome.execError msg) = ∅) ∧
    (∀ (env : Env) (dry : Bool) (c : ConfigModel), env.configFile = FileRead.parsed c →
      (mainRun env dry).events.count Event.tfStateList = 1) := by
  refine ⟨?_, fun _ _ => rfl, fun _ => rfl,
    fun env dry c hc => mainRun_stateList_count env dry c hc⟩
  intro raw h
  simp only [get_state_resources]
  rw [h]
  rfl

/-- C9 (witness): a listing that fails with a nonzero exit code yields the
empty TrackedSet, and the concrete run `envC1` lists the state exactly
once. -/
theorem C9_state_reader_witness :
    get_state_resources (TfOutcome.exitCode 1 "Error: state locked") = ∅ ∧
    (mainRun envC1 false).events.count Event.tfStateList = 1 :=
  ⟨C9_state_reader.1 (TfOutcome.exitCode 1 "Error: state locked") (by decide),
   C9_state_reader.2.2.2 envC1 false ⟨some "us-east-1"⟩ rfl⟩

/-- C10: a successful listing whose output is empty or whitespace-only
yields the empty set (never a set containing the empty string), so an empty
store, a whitespace-only listing and a failed listing all produce the same
TrackedSet. -/
theorem C10_blank_listing :
    (∀ raw, (pyStrip (run_terraform_cmd raw).2 = "" ∨ (run_terraform_cmd raw).1 = false) →
      get_state_resources raw = ∅ ∧ "" ∉ get_state_resources raw) ∧
    get_state_resources (TfOutcome.exitCode 0 "") = ∅ ∧
    get_state_resources (TfOutcome.exitCode 0 "  \n\t  ") = ∅ ∧
    get_state_resources (TfOutcome.exitCode 1 "Error: failed") = ∅ := by
  refine ⟨?_, rfl, by decide, rfl⟩
  intro raw h
  have hempty : get_state_resources raw = ∅ := by
    rcases h with h | h
    · simp only [get_state_resources]
      split
      · rw [if_neg (not_not_intro h)]
      · rfl
    · simp only [get_state_resources]
      rw [h]
      rfl
  rw [hempty]
  exact ⟨rfl, Finset.not_mem_empty ""⟩

/-- C10 (witness): the general statement applied to the whitespace-only
listing. -/
theorem C10_blank_listing_witness :
    get_state_resources (TfOutcome.exitCode 0 " \n ") = ∅ ∧
    "" ∉ get_state_resources (TfOutcome.exitCode 0 " \n ") :=
  C10_blank_listing.1 (TfOutcome.exitCode 0 " \n ") (Or.inl (by decide))
